import Mathlib

/-!
# SkyContest OpenGL template: shader program object and hot-reload loop

A shallow embedding of

* `mogl::ShaderProgram` (`src/3rd_party/mogl/object/shader/shaderprogram.{hpp,inl}`):
  `link`, `getLog`, `getAttribLocation`, `getUniformLocation`, `retrieveLocations`,
  `retrieveSubroutines`, and the specialisations of `setUniform`, `setUniformPtr` and
  `setUniformMatrixPtr`;
* the reload loop of `src/main.cpp`: `LoadTextFile`, `GetExecDir`, `GetShaderPath`,
  `LoadShaders`, `UpdateListener::handleFileAction`, `RenderFrame`.

Conventions.

* `std::map<K, V>` is a finite map with unique keys (`Finmap`): `m[k] = v` is `Finmap.insert`,
  `m.find(k)` is `Finmap.lookup`. Iteration order is only used by `printDebug`, which is not
  embedded.
* `GLint` is `Int`, `GLuint` and `GLenum` are `Nat`; the one place where the source sends a
  value through both (`GLuint location`) wraps explicitly modulo `2 ^ 32`.
* The OpenGL driver is outside the program. What it answers during one call of `link()` is
  an input of the model (`LinkReply`), and so is everything `LoadShaders` gets from the file
  system and from `mogl::Shader::compile` (`RebuildEnv`).
* C++ exceptions are `Except String _`; the string is the text given to the exception's
  constructor, `what` is the C string read back from it.
-/

namespace SkyContest

/-! ## OpenGL scalar types and constants -/

abbrev GLint := Int
abbrev GLuint := Nat
abbrev GLenum := Nat
/-- The value of a `GLfloat`, kept as its bit pattern: the program only passes it on. -/
abbrev GLfloat := Nat

def GL_FALSE : GLint := 0
def GL_TRUE : GLint := 1
def GL_FRAGMENT_SHADER : GLenum := 0x8B30
def GL_VERTEX_SHADER : GLenum := 0x8B31
def GL_GEOMETRY_SHADER : GLenum := 0x8DD9
def GL_TESS_EVALUATION_SHADER : GLenum := 0x8E87
def GL_TESS_CONTROL_SHADER : GLenum := 0x8E88
def GL_COMPUTE_SHADER : GLenum := 0x91B9

/-- Conversion of a `GLint` to `GLuint`: reduction modulo `2 ^ 32`. -/
def toGLuint (x : GLint) : GLuint := (x % 2 ^ 32).toNat

/-- Conversion of a `GLuint` to `GLint`: the two's complement reading of the low 32 bits. -/
def toGLint (n : GLuint) : GLint :=
  if n % 2 ^ 32 < 2 ^ 31 then (n % 2 ^ 32 : Nat) else (n % 2 ^ 32 : Nat) - 2 ^ 32

/-! ## C strings -/

/-- The terminator of a C string. -/
def NUL : Char := Char.ofNat 0

/-- The characters of the C string that starts at the beginning of a character buffer:
everything before the first terminator. -/
def cString (buf : List Char) : List Char := buf.takeWhile (fun c => c != NUL)

/-- The `std::string` built from `const char*`, as in `_log = &infoLog[0]` and in
`last_error_message = error.what()`. -/
def what (text : String) : String := String.mk (cString text.data)

/-! ## The program object -/

/-- Source: `using HandleMap = std::map<std::string, GLint>`. -/
abbrev HandleMap := Finmap (fun _ : String => GLint)

/-- Source: `struct SubroutineUniform`. -/
structure SubroutineUniform where
  uniform : GLuint
  subroutines : HandleMap
deriving DecidableEq

/-- Source: `using SubroutineMap = std::map<std::string, SubroutineUniform>`. -/
abbrev SubroutineMap := Finmap (fun _ : String => SubroutineUniform)

/-- Source: `using ShaderSubroutineMap = std::map<GLenum, SubroutineMap>`. -/
abbrev ShaderSubroutineMap := Finmap (fun _ : GLenum => SubroutineMap)

/-- The data members of `mogl::ShaderProgram` (`_handle` comes from `Handle<GLuint>`). -/
structure ShaderProgram where
  _handle : GLuint
  _log : String
  _attribs : HandleMap
  _uniforms : HandleMap
  _subroutines : ShaderSubroutineMap
deriving DecidableEq

/-- The constructor `ShaderProgram::ShaderProgram()`: `_handle = glCreateProgram()`, all other members
default-constructed. The argument is the handle the driver hands out. -/
def ShaderProgram.create (handle : GLuint) : ShaderProgram :=
  { _handle := handle, _log := "", _attribs := ∅, _uniforms := ∅, _subroutines := ∅ }

/-! ## What the driver answers during `link()` -/

/-- The three-iterator `std::mismatch(first1, last1, first2)`: walks both ranges while the
elements agree and returns what is left of the first range (`[]` is `last1`). The second
range has to be long enough for the walk (`mismatchInBounds`); the case in which it is not
returns the rest of the first range and is never reached from `link`. -/
def mismatch : List Char → List Char → List Char
  | [], _ => []
  | a :: as, [] => a :: as
  | a :: as, b :: bs => if a = b then mismatch as bs else a :: as

/-- Source: `std::string arraySuffix("[0]")`. -/
def arraySuffix : String := "[0]"

/-- Whether the walk of `std::mismatch(first1, last1, first2)` stays inside the second
range, that is, never dereferences `first2` past its last element. -/
def mismatchInBounds : List Char → List Char → Bool
  | [], _ => true
  | _ :: _, [] => false
  | a :: as, b :: bs => if a = b then mismatchInBounds as bs else true

/-- Everything the driver answers to the queries of one `link()` call.

* `linkStatus`, `infoLogLength`: `get(GL_LINK_STATUS)`, `get(GL_INFO_LOG_LENGTH)`;
* `infoLog`: the text of the program's information log, from which `glGetProgramInfoLog`
  copies;
* `activeAttribs`, `activeUniforms`: the names `glGetActiveAttrib` / `glGetActiveUniform`
  write for the indices `0 .. n - 1`, in that order (`n` is `GL_ACTIVE_ATTRIBUTES`,
  respectively `GL_ACTIVE_UNIFORMS`);
* `attribLocation`, `uniformLocation`: `glGetAttribLocation`, `glGetUniformLocation`;
* `subroutineUniforms type`: for each active subroutine uniform of the stage, in index
  order, its name and the indices of its compatible subroutines;
* `subroutineName`: `glGetActiveSubroutineName`.

The last two fields leave out the replies on which `link()` has no defined behaviour, and
no others. `infoLogWritten`: after a failed link, a log reported longer than its terminator
has at least one character; otherwise `glGetProgramInfoLog` returns length 0 and
`infoLog[logLength - 1]` is a store at index -1. `uniformNamesInBounds`: after a successful
link, the suffix test of `retrieveLocations` does not read before the first character of a
uniform name, which it would for the names that are empty, `]` or `0]`; OpenGL names start
with an identifier. -/
structure LinkReply where
  linkStatus : GLint
  infoLogLength : GLint
  infoLog : List Char
  activeAttribs : List String
  attribLocation : String → GLint
  activeUniforms : List String
  uniformLocation : String → GLint
  subroutineUniforms : GLenum → List (String × List GLint)
  subroutineName : GLenum → GLint → String
  infoLogWritten : linkStatus = GL_FALSE → 1 < infoLogLength → infoLog ≠ [] := by decide
  uniformNamesInBounds : linkStatus ≠ GL_FALSE → ∀ u ∈ activeUniforms,
    mismatchInBounds arraySuffix.data.reverse u.data.reverse = true := by decide

/-- The driver call `glGetProgramInfoLog(_handle, bufSize, &length, buf)`: copies at most `bufSize - 1`
characters of the information log to the start of the buffer, terminates them, and returns
the number of characters copied (the terminator not counted) together with the buffer. -/
def glGetProgramInfoLog (bufSize : Nat) (log : List Char) (buf : List Char) :
    Nat × List Char :=
  let n := min log.length (bufSize - 1)
  (n, log.take n ++ NUL :: buf.drop (n + 1))

/-! ## `retrieveLocations` -/

/-- The test of `retrieveLocations`:
`std::mismatch(arraySuffix.rbegin(), arraySuffix.rend(), uniformName.rbegin()).first
  == arraySuffix.rend()`. -/
def endsWithArraySuffix (uniformName : String) : Bool :=
  mismatch arraySuffix.data.reverse uniformName.data.reverse == []

/-- Source: `uniformName.substr(0, uniformName.length() - arraySuffix.length())`. -/
def stripArraySuffix (uniformName : String) : String :=
  String.mk (uniformName.data.take (uniformName.length - arraySuffix.length))

/-- The value that reaches the map in `location = glGet...Location(...); map[name] = location`
with `GLuint location`: the driver's `GLint` goes to `GLuint` and back. -/
def storedLocation (x : GLint) : GLint := toGLint (toGLuint x)

/-- Body of the attribute loop: `_attribs[name] = location`. -/
def retrieveAttrib (gpu : LinkReply) (attribs : HandleMap) (name : String) : HandleMap :=
  attribs.insert name (storedLocation (gpu.attribLocation name))

/-- Body of the uniform loop: `_uniforms[uniformName] = location`, and for a name ending in
`[0]` also `_uniforms[stripped name] = location`. -/
def retrieveUniform (gpu : LinkReply) (uniforms : HandleMap) (uniformName : String) :
    HandleMap :=
  let location := storedLocation (gpu.uniformLocation uniformName)
  let uniforms := uniforms.insert uniformName location
  if endsWithArraySuffix uniformName then
    uniforms.insert (stripArraySuffix uniformName) location
  else
    uniforms

/-- Source: `ShaderProgram::retrieveLocations()`. -/
def retrieveLocations (p : ShaderProgram) (gpu : LinkReply) : ShaderProgram :=
  { p with
    _attribs := gpu.activeAttribs.foldl (retrieveAttrib gpu) p._attribs
    _uniforms := gpu.activeUniforms.foldl (retrieveUniform gpu) p._uniforms }

/-! ## `retrieveSubroutines` -/

/-- The loop of `retrieveSubroutines(type)` from index `i` on, over the subroutine uniforms
still to be visited. `_subroutines[type][sname]` default-constructs what is missing; the
entry then gets `uniform = i` and one `subroutines[name] = s[j]` per compatible subroutine. -/
def retrieveSubroutinesFrom (gpu : LinkReply) (type : GLenum) :
    Nat → List (String × List GLint) → ShaderSubroutineMap → ShaderSubroutineMap
  | _, [], m => m
  | i, (sname, s) :: rest, m =>
    let stage : SubroutineMap := (m.lookup type).getD ∅
    let subUniform : SubroutineUniform :=
      (stage.lookup sname).getD { uniform := 0, subroutines := ∅ }
    let subUniform : SubroutineUniform :=
      { uniform := i
        subroutines :=
          s.foldl (fun h sj => h.insert (gpu.subroutineName type sj) sj)
            subUniform.subroutines }
    retrieveSubroutinesFrom gpu type (i + 1) rest (m.insert type (stage.insert sname subUniform))

/-- Source: `ShaderProgram::retrieveSubroutines(GLenum type)`. -/
def retrieveSubroutines (p : ShaderProgram) (gpu : LinkReply) (type : GLenum) :
    ShaderProgram :=
  { p with
    _subroutines := retrieveSubroutinesFrom gpu type 0 (gpu.subroutineUniforms type)
      p._subroutines }

/-! ## `link`, `getLog`, the location lookups -/

/-- Source: `bool ShaderProgram::link()`: the returned flag and the object afterwards. -/
def link (p : ShaderProgram) (gpu : LinkReply) : Bool × ShaderProgram :=
  if gpu.linkStatus = GL_FALSE then
    let logLength := gpu.infoLogLength
    if 1 < logLength then
      let infoLog := List.replicate logLength.toNat NUL
      let (logLength, infoLog) := glGetProgramInfoLog logLength.toNat gpu.infoLog infoLog
      let infoLog := infoLog.set (logLength - 1) NUL
      (false, { p with _log := String.mk (cString infoLog) })
    else
      (false, p)
  else
    let p := { p with _log := "" }
    let p := retrieveLocations p gpu
    let p := retrieveSubroutines p gpu GL_VERTEX_SHADER
    let p := retrieveSubroutines p gpu GL_GEOMETRY_SHADER
    let p := retrieveSubroutines p gpu GL_TESS_CONTROL_SHADER
    let p := retrieveSubroutines p gpu GL_TESS_EVALUATION_SHADER
    let p := retrieveSubroutines p gpu GL_COMPUTE_SHADER
    let p := retrieveSubroutines p gpu GL_FRAGMENT_SHADER
    (true, p)

/-- Source: `const std::string& ShaderProgram::getLog() const`. -/
def getLog (p : ShaderProgram) : String := p._log

/-- Source: `GLint ShaderProgram::getAttribLocation(const std::string&) const`: the returned value.
On a miss the source also writes one line to `std::cerr`; being `const`, the method has no
other effect on the object. -/
def getAttribLocation (p : ShaderProgram) (name : String) : GLint :=
  match p._attribs.lookup name with
  | some location => location
  | none => -1

/-- Source: `GLint ShaderProgram::getUniformLocation(const std::string&) const`: as
`getAttribLocation`, on `_uniforms`. -/
def getUniformLocation (p : ShaderProgram) (name : String) : GLint :=
  match p._uniforms.lookup name with
  | some location => location
  | none => -1

/-- A run of `link()` calls on one object, one driver reply per call; the object afterwards. -/
def links (p : ShaderProgram) (replies : List LinkReply) : ShaderProgram :=
  replies.foldl (fun q gpu => (link q gpu).2) p

/-! ## `main.cpp`: loading the shaders -/

/-- What the file system answers about one path while `LoadTextFile` runs.

* `status`: `fs::exists(path)`, or the text of the `filesystem_error` it throws;
* `file_size`: `fs::file_size(path)`, or the text of the `filesystem_error` it throws;
* `opens`: whether the `std::ifstream` is good after construction;
* `content`: the string `str` after `resize` and `read`. -/
structure FileProbe where
  status : Except String Bool
  file_size : Except String Nat
  opens : Bool
  content : String

/-- Source: `std::string LoadTextFile(const fs::path&)`; paths are their `string()`. -/
def LoadTextFile (fs : String → FileProbe) (path : String) : Except String String := do
  if !(← (fs path).status) then
    throw ("file " ++ path ++ " does not exist")
  let _file_size ← (fs path).file_size
  if !(fs path).opens then
    throw ("failed to open file " ++ path)
  pure (fs path).content

/-- The two operations of `std::filesystem::path` that the program uses, on the platform
of the build (the source builds for Windows and for POSIX systems), with a path given as
its `string()`.

* `parent_path p`: `p.parent_path()`;
* `append p q`: `p / q`, which puts the platform's separator between the two unless `p` has
  no file name (is empty or ends in a separator). -/
structure PathLib where
  parent_path : String → String
  append : String → String → String

/-- Everything one rebuild obtains from outside the program.

* `GetExecPath`: the result of `GetExecPath()`, the path of the running executable, or the
  text of the `filesystem_error` that `std::filesystem::canonical` throws; the executable
  being the same throughout, every call during one rebuild gets this answer;
* `paths`: the path operations of the platform;
* `fs`: the file system, path by path;
* `program`: the handle `glCreateProgram()` returns to the new `ShaderProgram`;
* `compile type source`: `isCompiled()` and `getLog()` of a `mogl::Shader` of that type
  after `compile(source)` (the class `mogl::Shader` is not among the sources);
* `linkReply`: the driver's answers during `shader_program.link()`. -/
structure RebuildEnv where
  GetExecPath : Except String String
  paths : PathLib
  fs : String → FileProbe
  program : GLuint
  compile : GLenum → String → Bool × String
  linkReply : LinkReply

/-- Source: `fs::path GetExecDir()`: `GetExecPath().parent_path()`. -/
def GetExecDir (env : RebuildEnv) : Except String String := do
  pure (env.paths.parent_path (← env.GetExecPath))

/-- Source: `fs::path GetShaderPath(GLenum type)`. -/
def GetShaderPath (env : RebuildEnv) (type : GLenum) : Except String String :=
  if type = GL_VERTEX_SHADER then do
    pure (env.paths.append (env.paths.append (← GetExecDir env) "assets") "vertex.glsl")
  else if type = GL_FRAGMENT_SHADER then do
    pure (env.paths.append (env.paths.append (← GetExecDir env) "assets") "fragment.glsl")
  else
    throw "unsupported shader type"

/-- Body of the loop of `LoadShaders` for the shader of the given type: read the source,
compile, throw the shader's log unless compiled, attach. -/
def loadShader (env : RebuildEnv) (type : GLenum) : Except String Unit := do
  let source ← LoadTextFile env.fs (← GetShaderPath env type)
  let (isCompiled, log) := env.compile type source
  if !isCompiled then
    throw log
  pure ()

set_option linter.unusedVariables false in
/-- Source: `mogl::ShaderProgram LoadShaders(const fs::path& vertex, const fs::path& fragment)`.
The source does not use its two parameters. -/
def LoadShaders (env : RebuildEnv) (vertex fragment : String) : Except String ShaderProgram := do
  let shader_program := ShaderProgram.create env.program
  loadShader env GL_VERTEX_SHADER
  loadShader env GL_FRAGMENT_SHADER
  let (linked, shader_program) := link shader_program env.linkReply
  if !linked then
    throw (getLog shader_program)
  pure shader_program

/-! ## `main.cpp`: the reload flag and the frame -/

/-- Source: `std::atomic_flag::test_and_set()`: the value returned and the flag afterwards. -/
def test_and_set (flag : Bool) : Bool × Bool := (flag, true)

/-- Source: `std::atomic_flag::clear()`: the flag afterwards. -/
def clear (_flag : Bool) : Bool := false

/-- The variables that outlive a frame: the global `shader_program_is_initialized` and the
two function-local statics of `RenderFrame`. -/
structure RenderState where
  shader_program_is_initialized : Bool
  shader_program : ShaderProgram
  last_error_message : String
deriving DecidableEq

/-- Source: `UpdateListener::handleFileAction`: `shader_program_is_initialized.clear()`. -/
def handleFileAction (st : RenderState) : RenderState :=
  { st with shader_program_is_initialized := clear st.shader_program_is_initialized }

/-- The OpenGL commands `RenderFrame` issues itself or through `setUniform` and `use`. -/
inductive GpuCall where
  | glClear (mask : Nat)
  | glProgramUniform1f (program : GLuint) (location : GLint) (v0 : GLfloat)
  | glUseProgram (program : GLuint)
  | glDisable (cap : GLenum)
  | glDrawElements (mode : GLenum) (count : Nat) (type : GLenum)
deriving DecidableEq

def GL_COLOR_BUFFER_BIT : Nat := 0x4000
def GL_DEPTH_TEST : GLenum := 0x0B71
def GL_TRIANGLES : GLenum := 0x0004
def GL_UNSIGNED_SHORT : GLenum := 0x1403

/-- Source: `std::vector<uint16_t> indices`. -/
def indices : List Nat := [0, 1, 2, 0, 3, 2]

/-- In `RenderFrame`, line 127: `shader_program_is_initialized.test_and_set()`; the value
returned and the state afterwards. -/
def RenderFrame.testAndSet (st : RenderState) : Bool × RenderState :=
  let (was, flag) := test_and_set st.shader_program_is_initialized
  (was, { st with shader_program_is_initialized := flag })

/-- In `RenderFrame`, lines 129-132: the expression `LoadShaders(GetExecDir() / "assets" /
"vertex.glsl", GetExecDir() / "assets" / "fragment.glsl")`, arguments first. The order in
which the two arguments are evaluated is not fixed; both make the same calls and
`LoadShaders` uses neither value. -/
def RenderFrame.tryLoadShaders (env : RebuildEnv) : Except String ShaderProgram := do
  let vertex := env.paths.append (env.paths.append (← GetExecDir env) "assets") "vertex.glsl"
  let fragment :=
    env.paths.append (env.paths.append (← GetExecDir env) "assets") "fragment.glsl"
  LoadShaders env vertex fragment

/-- In `RenderFrame`, lines 128-136: the `try` block and its handler. The move assignment
`shader_program = LoadShaders(...)` hands the returned object over to `shader_program`
(the move operations of `Handle<GLuint>` are not among the sources). -/
def RenderFrame.rebuild (st : RenderState) (env : RebuildEnv) : RenderState :=
  match RenderFrame.tryLoadShaders env with
  | .ok program => { st with shader_program := program, last_error_message := "" }
  | .error error => { st with last_error_message := what error }

/-- In `RenderFrame`, lines 139-143: `setUniform("Time", GetTime())`, `use()` and the draw
call; none of them writes a variable of `RenderState`. -/
def RenderFrame.draw (st : RenderState) (time : GLfloat) : List GpuCall :=
  [ GpuCall.glProgramUniform1f st.shader_program._handle
      (getUniformLocation st.shader_program "Time") time,
    GpuCall.glUseProgram st.shader_program._handle,
    GpuCall.glDisable GL_DEPTH_TEST,
    GpuCall.glDrawElements GL_TRIANGLES indices.length GL_UNSIGNED_SHORT ]

/-- Source: `void RenderFrame()`: the state after the frame and the OpenGL commands issued. `env` is
what a rebuild in this frame would find, `time` the value of `GetTime()`. The calls into
ImGui are not embedded; the overlay is handed `last_error_message`. -/
def RenderFrame (st : RenderState) (env : RebuildEnv) (time : GLfloat) :
    RenderState × List GpuCall :=
  let (was, st) := RenderFrame.testAndSet st
  let st := if !was then RenderFrame.rebuild st env else st
  (st, GpuCall.glClear GL_COLOR_BUFFER_BIT :: RenderFrame.draw st time)

/-- In `RenderFrame`, line 147: the second argument of
`ImGui::TextColored(ImVec4(...), last_error_message.c_str())`. That parameter is the
`printf`-style format of the overlay text (line 146 uses the sibling `ImGui::Text` with a
format and two arguments); no argument follows it here. -/
def RenderFrame.overlayFormat (st : RenderState) : List Char :=
  cString st.last_error_message.data

/-- The output of the `printf` family of C for a format after which no argument is passed:
ordinary characters are copied, `%%` gives `%`, and any other use of `%` is a conversion
that needs an argument or is malformed, for which C defines no behaviour (`none`). A limit
that the formatting buffer may put on the length of the output is left out. -/
def printfNoArguments : List Char → Option (List Char)
  | [] => some []
  | [c] => if c = Char.ofNat 37 then none else some [c]
  | c :: d :: rest =>
    if c = Char.ofNat 37 then
      if d = Char.ofNat 37 then (printfNoArguments rest).map (fun out => c :: out) else none
    else (printfNoArguments (d :: rest)).map (fun out => c :: out)

/-- The reload flag is dirty when `shader_program_is_initialized` is clear. -/
def dirty (st : RenderState) : Bool := !st.shader_program_is_initialized

/-- The operation `markDirty()` of the specification: `UpdateListener::handleFileAction`. -/
def markDirty (st : RenderState) : RenderState := handleFileAction st

/-- The operation `takeDirtyAndClear()` of the specification: the negation of the `test_and_set` of
`RenderFrame`, with the state afterwards. -/
def takeDirtyAndClear (st : RenderState) : Bool × RenderState :=
  let (was, st) := RenderFrame.testAndSet st
  (!was, st)

/-! ## The watcher thread and the render thread, interleaved

`handleFileAction` runs on the file watcher's thread. Both threads touch only the atomic
flag in common, so an execution is a sequence of atomic steps: a file action, or the next
block of the render thread. The render thread's blocks are the three parts of `RenderFrame`
above; the rebuild is one block because it neither reads nor writes the flag. -/

/-- Where the render thread is. -/
inductive Pc where
  | frameStart
  | rebuilding
  | drawing
deriving DecidableEq

/-- The two threads together; `rebuilds` counts the rebuild attempts started so far. -/
structure System where
  pc : Pc
  render : RenderState
  rebuilds : Nat
deriving DecidableEq

/-- One atomic step: a file action on the watcher thread, or the next block of the render
thread (with what a rebuild would find, should the block be the rebuild). -/
inductive Event where
  | fileAction
  | renderStep (env : RebuildEnv)

/-- The effect of one step. -/
def System.step (s : System) : Event → System
  | .fileAction => { s with render := handleFileAction s.render }
  | .renderStep env =>
    match s.pc with
    | .frameStart =>
      let (was, st) := RenderFrame.testAndSet s.render
      if !was then { pc := .rebuilding, render := st, rebuilds := s.rebuilds + 1 }
      else { pc := .drawing, render := st, rebuilds := s.rebuilds }
    | .rebuilding => { s with pc := .drawing, render := RenderFrame.rebuild s.render env }
    | .drawing => { s with pc := .frameStart }

/-- The effect of a sequence of steps. -/
def System.run (s : System) (events : List Event) : System :=
  events.foldl System.step s

/-- The number of blocks the render thread still has to run to finish its current frame. -/
def Pc.remaining : Pc → Nat
  | .frameStart => 0
  | .rebuilding => 2
  | .drawing => 1

/-- The number of render-thread blocks among the steps. -/
def renderSteps : List Event → Nat
  | [] => 0
  | .fileAction :: es => renderSteps es
  | .renderStep _ :: es => renderSteps es + 1


/-! ## `setUniform`, `setUniformPtr`, `setUniformMatrixPtr`

Each specialisation of the three templates is one definition, named after the template and
its template arguments. The member functions are not `const`; a definition returns the
object after the call together with the commands issued to the driver. -/

abbrev GLsizei := Int
abbrev GLboolean := Nat

/-- The entry points `glProgramUniform*`, each with the arguments that follow `program` and
`location`. A pointer argument is the array it points to. -/
inductive UniformData where
  | glProgramUniform1f (v0 : GLfloat)
  | glProgramUniform2f (v0 v1 : GLfloat)
  | glProgramUniform3f (v0 v1 v2 : GLfloat)
  | glProgramUniform4f (v0 v1 v2 v3 : GLfloat)
  | glProgramUniform1i (v0 : GLint)
  | glProgramUniform2i (v0 v1 : GLint)
  | glProgramUniform3i (v0 v1 v2 : GLint)
  | glProgramUniform4i (v0 v1 v2 v3 : GLint)
  | glProgramUniform1ui (v0 : GLuint)
  | glProgramUniform2ui (v0 v1 : GLuint)
  | glProgramUniform3ui (v0 v1 v2 : GLuint)
  | glProgramUniform4ui (v0 v1 v2 v3 : GLuint)
  | glProgramUniform1fv (count : GLsizei) (value : List GLfloat)
  | glProgramUniform2fv (count : GLsizei) (value : List GLfloat)
  | glProgramUniform3fv (count : GLsizei) (value : List GLfloat)
  | glProgramUniform4fv (count : GLsizei) (value : List GLfloat)
  | glProgramUniform1iv (count : GLsizei) (value : List GLint)
  | glProgramUniform2iv (count : GLsizei) (value : List GLint)
  | glProgramUniform3iv (count : GLsizei) (value : List GLint)
  | glProgramUniform4iv (count : GLsizei) (value : List GLint)
  | glProgramUniform1uiv (count : GLsizei) (value : List GLuint)
  | glProgramUniform2uiv (count : GLsizei) (value : List GLuint)
  | glProgramUniform3uiv (count : GLsizei) (value : List GLuint)
  | glProgramUniform4uiv (count : GLsizei) (value : List GLuint)
  | glProgramUniformMatrix2fv (count : GLsizei) (transpose : GLboolean) (value : List GLfloat)
  | glProgramUniformMatrix3fv (count : GLsizei) (transpose : GLboolean) (value : List GLfloat)
  | glProgramUniformMatrix4fv (count : GLsizei) (transpose : GLboolean) (value : List GLfloat)
  | glProgramUniformMatrix2x3fv (count : GLsizei) (transpose : GLboolean) (value : List GLfloat)
  | glProgramUniformMatrix3x2fv (count : GLsizei) (transpose : GLboolean) (value : List GLfloat)
  | glProgramUniformMatrix2x4fv (count : GLsizei) (transpose : GLboolean) (value : List GLfloat)
  | glProgramUniformMatrix4x2fv (count : GLsizei) (transpose : GLboolean) (value : List GLfloat)
  | glProgramUniformMatrix3x4fv (count : GLsizei) (transpose : GLboolean) (value : List GLfloat)
  | glProgramUniformMatrix4x3fv (count : GLsizei) (transpose : GLboolean) (value : List GLfloat)
deriving DecidableEq

/-- One command `glProgramUniform*(program, location, ...)`: an upload addressed to the
program object named by `program`, whichever program is bound to the context. -/
structure ProgramUniform where
  program : GLuint
  location : GLint
  data : UniformData
deriving DecidableEq

/-- Source: `setUniform<GLfloat>(name, v1)`. -/
def setUniform_GLfloat_1 (p : ShaderProgram) (name : String) (v1 : GLfloat) :
    ShaderProgram × List ProgramUniform :=
  (p, [⟨p._handle, getUniformLocation p name, .glProgramUniform1f v1⟩])

/-- Source: `setUniform<GLfloat>(name, v1, v2)`. -/
def setUniform_GLfloat_2 (p : ShaderProgram) (name : String) (v1 v2 : GLfloat) :
    ShaderProgram × List ProgramUniform :=
  (p, [⟨p._handle, getUniformLocation p name, .glProgramUniform2f v1 v2⟩])

/-- Source: `setUniform<GLfloat>(name, v1, v2, v3)`. -/
def setUniform_GLfloat_3 (p : ShaderProgram) (name : String) (v1 v2 v3 : GLfloat) :
    ShaderProgram × List ProgramUniform :=
  (p, [⟨p._handle, getUniformLocation p name, .glProgramUniform3f v1 v2 v3⟩])

/-- Source: `setUniform<GLfloat>(name, v1, v2, v3, v4)`. -/
def setUniform_GLfloat_4 (p : ShaderProgram) (name : String) (v1 v2 v3 v4 : GLfloat) :
    ShaderProgram × List ProgramUniform :=
  (p, [⟨p._handle, getUniformLocation p name, .glProgramUniform4f v1 v2 v3 v4⟩])

/-- Source: `setUniform<GLint>(name, v1)`. -/
def setUniform_GLint_1 (p : ShaderProgram) (name : String) (v1 : GLint) :
    ShaderProgram × List ProgramUniform :=
  (p, [⟨p._handle, getUniformLocation p name, .glProgramUniform1i v1⟩])

/-- Source: `setUniform<GLint>(name, v1, v2)`. -/
def setUniform_GLint_2 (p : ShaderProgram) (name : String) (v1 v2 : GLint) :
    ShaderProgram × List ProgramUniform :=
  (p, [⟨p._handle, getUniformLocation p name, .glProgramUniform2i v1 v2⟩])

/-- Source: `setUniform<GLint>(name, v1, v2, v3)`. -/
def setUniform_GLint_3 (p : ShaderProgram) (name : String) (v1 v2 v3 : GLint) :
    ShaderProgram × List ProgramUniform :=
  (p, [⟨p._handle, getUniformLocation p name, .glProgramUniform3i v1 v2 v3⟩])

/-- Source: `setUniform<GLint>(name, v1, v2, v3, v4)`. -/
def setUniform_GLint_4 (p : ShaderProgram) (name : String) (v1 v2 v3 v4 : GLint) :
    ShaderProgram × List ProgramUniform :=
  (p, [⟨p._handle, getUniformLocation p name, .glProgramUniform4i v1 v2 v3 v4⟩])

/-- Source: `setUniform<GLuint>(name, v1)`. -/
def setUniform_GLuint_1 (p : ShaderProgram) (name : String) (v1 : GLuint) :
    ShaderProgram × List ProgramUniform :=
  (p, [⟨p._handle, getUniformLocation p name, .glProgramUniform1ui v1⟩])

/-- Source: `setUniform<GLuint>(name, v1, v2)`. -/
def setUniform_GLuint_2 (p : ShaderProgram) (name : String) (v1 v2 : GLuint) :
    ShaderProgram × List ProgramUniform :=
  (p, [⟨p._handle, getUniformLocation p name, .glProgramUniform2ui v1 v2⟩])

/-- Source: `setUniform<GLuint>(name, v1, v2, v3)`. -/
def setUniform_GLuint_3 (p : ShaderProgram) (name : String) (v1 v2 v3 : GLuint) :
    ShaderProgram × List ProgramUniform :=
  (p, [⟨p._handle, getUniformLocation p name, .glProgramUniform3ui v1 v2 v3⟩])

/-- Source: `setUniform<GLuint>(name, v1, v2, v3, v4)`. -/
def setUniform_GLuint_4 (p : ShaderProgram) (name : String) (v1 v2 v3 v4 : GLuint) :
    ShaderProgram × List ProgramUniform :=
  (p, [⟨p._handle, getUniformLocation p name, .glProgramUniform4ui v1 v2 v3 v4⟩])

/-- Source: `setUniformPtr<1, GLfloat>(name, ptr, count)`. -/
def setUniformPtr_1_GLfloat (p : ShaderProgram) (name : String) (ptr : List GLfloat)
    (count : GLsizei) : ShaderProgram × List ProgramUniform :=
  (p, [⟨p._handle, getUniformLocation p name, .glProgramUniform1fv count ptr⟩])

/-- Source: `setUniformPtr<2, GLfloat>(name, ptr, count)`. -/
def setUniformPtr_2_GLfloat (p : ShaderProgram) (name : String) (ptr : List GLfloat)
    (count : GLsizei) : ShaderProgram × List ProgramUniform :=
  (p, [⟨p._handle, getUniformLocation p name, .glProgramUniform2fv count ptr⟩])

/-- Source: `setUniformPtr<3, GLfloat>(name, ptr, count)`. -/
def setUniformPtr_3_GLfloat (p : ShaderProgram) (name : String) (ptr : List GLfloat)
    (count : GLsizei) : ShaderProgram × List ProgramUniform :=
  (p, [⟨p._handle, getUniformLocation p name, .glProgramUniform3fv count ptr⟩])

/-- Source: `setUniformPtr<4, GLfloat>(name, ptr, count)`. -/
def setUniformPtr_4_GLfloat (p : ShaderProgram) (name : String) (ptr : List GLfloat)
    (count : GLsizei) : ShaderProgram × List ProgramUniform :=
  (p, [⟨p._handle, getUniformLocation p name, .glProgramUniform4fv count ptr⟩])

/-- Source: `setUniformPtr<1, GLint>(name, ptr, count)`. -/
def setUniformPtr_1_GLint (p : ShaderProgram) (name : String) (ptr : List GLint)
    (count : GLsizei) : ShaderProgram × List ProgramUniform :=
  (p, [⟨p._handle, getUniformLocation p name, .glProgramUniform1iv count ptr⟩])

/-- Source: `setUniformPtr<2, GLint>(name, ptr, count)`. -/
def setUniformPtr_2_GLint (p : ShaderProgram) (name : String) (ptr : List GLint)
    (count : GLsizei) : ShaderProgram × List ProgramUniform :=
  (p, [⟨p._handle, getUniformLocation p name, .glProgramUniform2iv count ptr⟩])

/-- Source: `setUniformPtr<3, GLint>(name, ptr, count)`. -/
def setUniformPtr_3_GLint (p : ShaderProgram) (name : String) (ptr : List GLint)
    (count : GLsizei) : ShaderProgram × List ProgramUniform :=
  (p, [⟨p._handle, getUniformLocation p name, .glProgramUniform3iv count ptr⟩])

/-- Source: `setUniformPtr<4, GLint>(name, ptr, count)`. -/
def setUniformPtr_4_GLint (p : ShaderProgram) (name : String) (ptr : List GLint)
    (count : GLsizei) : ShaderProgram × List ProgramUniform :=
  (p, [⟨p._handle, getUniformLocation p name, .glProgramUniform4iv count ptr⟩])

/-- Source: `setUniformPtr<1, GLuint>(name, ptr, count)`. -/
def setUniformPtr_1_GLuint (p : ShaderProgram) (name : String) (ptr : List GLuint)
    (count : GLsizei) : ShaderProgram × List ProgramUniform :=
  (p, [⟨p._handle, getUniformLocation p name, .glProgramUniform1uiv count ptr⟩])

/-- Source: `setUniformPtr<2, GLuint>(name, ptr, count)`. -/
def setUniformPtr_2_GLuint (p : ShaderProgram) (name : String) (ptr : List GLuint)
    (count : GLsizei) : ShaderProgram × List ProgramUniform :=
  (p, [⟨p._handle, getUniformLocation p name, .glProgramUniform2uiv count ptr⟩])

/-- Source: `setUniformPtr<3, GLuint>(name, ptr, count)`. -/
def setUniformPtr_3_GLuint (p : ShaderProgram) (name : String) (ptr : List GLuint)
    (count : GLsizei) : ShaderProgram × List ProgramUniform :=
  (p, [⟨p._handle, getUniformLocation p name, .glProgramUniform3uiv count ptr⟩])

/-- Source: `setUniformPtr<4, GLuint>(name, ptr, count)`. -/
def setUniformPtr_4_GLuint (p : ShaderProgram) (name : String) (ptr : List GLuint)
    (count : GLsizei) : ShaderProgram × List ProgramUniform :=
  (p, [⟨p._handle, getUniformLocation p name, .glProgramUniform4uiv count ptr⟩])

/-- Source: `setUniformMatrixPtr<2, 2, GLfloat>(name, ptr, transpose, count)`. -/
def setUniformMatrixPtr_2_2_GLfloat (p : ShaderProgram) (name : String) (ptr : List GLfloat)
    (transpose : GLboolean) (count : GLsizei) : ShaderProgram × List ProgramUniform :=
  (p, [⟨p._handle, getUniformLocation p name, .glProgramUniformMatrix2fv count transpose ptr⟩])

/-- Source: `setUniformMatrixPtr<3, 3, GLfloat>(name, ptr, transpose, count)`. -/
def setUniformMatrixPtr_3_3_GLfloat (p : ShaderProgram) (name : String) (ptr : List GLfloat)
    (transpose : GLboolean) (count : GLsizei) : ShaderProgram × List ProgramUniform :=
  (p, [⟨p._handle, getUniformLocation p name, .glProgramUniformMatrix3fv count transpose ptr⟩])

/-- Source: `setUniformMatrixPtr<4, 4, GLfloat>(name, ptr, transpose, count)`. -/
def setUniformMatrixPtr_4_4_GLfloat (p : ShaderProgram) (name : String) (ptr : List GLfloat)
    (transpose : GLboolean) (count : GLsizei) : ShaderProgram × List ProgramUniform :=
  (p, [⟨p._handle, getUniformLocation p name, .glProgramUniformMatrix4fv count transpose ptr⟩])

/-- Source: `setUniformMatrixPtr<2, 3, GLfloat>(name, ptr, transpose, count)`. -/
def setUniformMatrixPtr_2_3_GLfloat (p : ShaderProgram) (name : String) (ptr : List GLfloat)
    (transpose : GLboolean) (count : GLsizei) : ShaderProgram × List ProgramUniform :=
  (p, [⟨p._handle, getUniformLocation p name, .glProgramUniformMatrix2x3fv count transpose ptr⟩])

/-- Source: `setUniformMatrixPtr<3, 2, GLfloat>(name, ptr, transpose, count)`. -/
def setUniformMatrixPtr_3_2_GLfloat (p : ShaderProgram) (name : String) (ptr : List GLfloat)
    (transpose : GLboolean) (count : GLsizei) : ShaderProgram × List ProgramUniform :=
  (p, [⟨p._handle, getUniformLocation p name, .glProgramUniformMatrix3x2fv count transpose ptr⟩])

/-- Source: `setUniformMatrixPtr<2, 4, GLfloat>(name, ptr, transpose, count)`. -/
def setUniformMatrixPtr_2_4_GLfloat (p : ShaderProgram) (name : String) (ptr : List GLfloat)
    (transpose : GLboolean) (count : GLsizei) : ShaderProgram × List ProgramUniform :=
  (p, [⟨p._handle, getUniformLocation p name, .glProgramUniformMatrix2x4fv count transpose ptr⟩])

/-- Source: `setUniformMatrixPtr<4, 2, GLfloat>(name, ptr, transpose, count)`. -/
def setUniformMatrixPtr_4_2_GLfloat (p : ShaderProgram) (name : String) (ptr : List GLfloat)
    (transpose : GLboolean) (count : GLsizei) : ShaderProgram × List ProgramUniform :=
  (p, [⟨p._handle, getUniformLocation p name, .glProgramUniformMatrix4x2fv count transpose ptr⟩])

/-- Source: `setUniformMatrixPtr<3, 4, GLfloat>(name, ptr, transpose, count)`. -/
def setUniformMatrixPtr_3_4_GLfloat (p : ShaderProgram) (name : String) (ptr : List GLfloat)
    (transpose : GLboolean) (count : GLsizei) : ShaderProgram × List ProgramUniform :=
  (p, [⟨p._handle, getUniformLocation p name, .glProgramUniformMatrix3x4fv count transpose ptr⟩])

/-- Source: `setUniformMatrixPtr<4, 3, GLfloat>(name, ptr, transpose, count)`. -/
def setUniformMatrixPtr_4_3_GLfloat (p : ShaderProgram) (name : String) (ptr : List GLfloat)
    (transpose : GLboolean) (count : GLsizei) : ShaderProgram × List ProgramUniform :=
  (p, [⟨p._handle, getUniformLocation p name, .glProgramUniformMatrix4x3fv count transpose ptr⟩])

/-- Source: `setUniformMatrixPtr<2, GLfloat>(name, ptr, transpose, count)`. -/
def setUniformMatrixPtr_2_GLfloat (p : ShaderProgram) (name : String) (ptr : List GLfloat)
    (transpose : GLboolean) (count : GLsizei) : ShaderProgram × List ProgramUniform :=
  (p, [⟨p._handle, getUniformLocation p name, .glProgramUniformMatrix2fv count transpose ptr⟩])

/-- Source: `setUniformMatrixPtr<3, GLfloat>(name, ptr, transpose, count)`. -/
def setUniformMatrixPtr_3_GLfloat (p : ShaderProgram) (name : String) (ptr : List GLfloat)
    (transpose : GLboolean) (count : GLsizei) : ShaderProgram × List ProgramUniform :=
  (p, [⟨p._handle, getUniformLocation p name, .glProgramUniformMatrix3fv count transpose ptr⟩])

/-- Source: `setUniformMatrixPtr<4, GLfloat>(name, ptr, transpose, count)`. -/
def setUniformMatrixPtr_4_GLfloat (p : ShaderProgram) (name : String) (ptr : List GLfloat)
    (transpose : GLboolean) (count : GLsizei) : ShaderProgram × List ProgramUniform :=
  (p, [⟨p._handle, getUniformLocation p name, .glProgramUniformMatrix4fv count transpose ptr⟩])

/-- Arguments for one call of every specialisation: four values and an array of each of
the three scalar types, a count and a transpose flag. -/
structure UniformArgs where
  f1 : GLfloat
  f2 : GLfloat
  f3 : GLfloat
  f4 : GLfloat
  i1 : GLint
  i2 : GLint
  i3 : GLint
  i4 : GLint
  u1 : GLuint
  u2 : GLuint
  u3 : GLuint
  u4 : GLuint
  fptr : List GLfloat
  iptr : List GLint
  uptr : List GLuint
  count : GLsizei
  transpose : GLboolean

/-- The results of calling each of the 36 specialisations once on the same object with the
same name, in the order of the source. -/
def everySetter (p : ShaderProgram) (name : String) (a : UniformArgs) :
    List (ShaderProgram × List ProgramUniform) :=
  [ setUniform_GLfloat_1 p name a.f1,
    setUniform_GLfloat_2 p name a.f1 a.f2,
    setUniform_GLfloat_3 p name a.f1 a.f2 a.f3,
    setUniform_GLfloat_4 p name a.f1 a.f2 a.f3 a.f4,
    setUniform_GLint_1 p name a.i1,
    setUniform_GLint_2 p name a.i1 a.i2,
    setUniform_GLint_3 p name a.i1 a.i2 a.i3,
    setUniform_GLint_4 p name a.i1 a.i2 a.i3 a.i4,
    setUniform_GLuint_1 p name a.u1,
    setUniform_GLuint_2 p name a.u1 a.u2,
    setUniform_GLuint_3 p name a.u1 a.u2 a.u3,
    setUniform_GLuint_4 p name a.u1 a.u2 a.u3 a.u4,
    setUniformPtr_1_GLfloat p name a.fptr a.count,
    setUniformPtr_2_GLfloat p name a.fptr a.count,
    setUniformPtr_3_GLfloat p name a.fptr a.count,
    setUniformPtr_4_GLfloat p name a.fptr a.count,
    setUniformPtr_1_GLint p name a.iptr a.count,
    setUniformPtr_2_GLint p name a.iptr a.count,
    setUniformPtr_3_GLint p name a.iptr a.count,
    setUniformPtr_4_GLint p name a.iptr a.count,
    setUniformPtr_1_GLuint p name a.uptr a.count,
    setUniformPtr_2_GLuint p name a.uptr a.count,
    setUniformPtr_3_GLuint p name a.uptr a.count,
    setUniformPtr_4_GLuint p name a.uptr a.count,
    setUniformMatrixPtr_2_2_GLfloat p name a.fptr a.transpose a.count,
    setUniformMatrixPtr_3_3_GLfloat p name a.fptr a.transpose a.count,
    setUniformMatrixPtr_4_4_GLfloat p name a.fptr a.transpose a.count,
    setUniformMatrixPtr_2_3_GLfloat p name a.fptr a.transpose a.count,
    setUniformMatrixPtr_3_2_GLfloat p name a.fptr a.transpose a.count,
    setUniformMatrixPtr_2_4_GLfloat p name a.fptr a.transpose a.count,
    setUniformMatrixPtr_4_2_GLfloat p name a.fptr a.transpose a.count,
    setUniformMatrixPtr_3_4_GLfloat p name a.fptr a.transpose a.count,
    setUniformMatrixPtr_4_3_GLfloat p name a.fptr a.transpose a.count,
    setUniformMatrixPtr_2_GLfloat p name a.fptr a.transpose a.count,
    setUniformMatrixPtr_3_GLfloat p name a.fptr a.transpose a.count,
    setUniformMatrixPtr_4_GLfloat p name a.fptr a.transpose a.count ]

/-! ## Assignments to a `HandleMap`, for the proofs -/

/-- The map after the assignments `m[k] = v` of a list, in order. -/
def assignAll (m : HandleMap) (ws : List (String × GLint)) : HandleMap :=
  ws.foldl (fun h w => h.insert w.1 w.2) m

/-- The value of the last assignment to `k` in a list of assignments. -/
def lastAssigned (k : String) : List (String × GLint) → Option GLint
  | [] => none
  | w :: ws =>
    match lastAssigned k ws with
    | some v => some v
    | none => if w.1 = k then some w.2 else none

/-- The assignments to `_uniforms` that the uniform loop makes for one reported name. -/
def uniformWrites (gpu : LinkReply) (name : String) : List (String × GLint) :=
  (name, storedLocation (gpu.uniformLocation name)) ::
    (if endsWithArraySuffix name then
      [(stripArraySuffix name, storedLocation (gpu.uniformLocation name))]
    else [])

/-- The assignments to `_uniforms` that the uniform loop makes, in order. -/
def uniformAssignments (gpu : LinkReply) : List String → List (String × GLint)
  | [] => []
  | name :: names => uniformWrites gpu name ++ uniformAssignments gpu names

/-- The assignments to `_attribs` that the attribute loop makes, in order. -/
def attribAssignments (gpu : LinkReply) (names : List String) : List (String × GLint) :=
  names.map (fun name => (name, storedLocation (gpu.attribLocation name)))

/-! ## Concrete driver replies, for evaluating the definitions -/

/-- A successful link of a program with one attribute, a scalar uniform and an array
uniform. -/
def replyLinked : LinkReply :=
  { linkStatus := GL_TRUE, infoLogLength := 0, infoLog := []
    activeAttribs := ["position"]
    attribLocation := fun _ => 0
    activeUniforms := ["Time", "foo[0]"]
    uniformLocation := fun name => if name = "Time" then 2 else 3
    subroutineUniforms := fun _ => []
    subroutineName := fun _ _ => "" }

/-- A successful link of a program with other names than those of `replyLinked`. -/
def replyRelinked : LinkReply :=
  { linkStatus := GL_TRUE, infoLogLength := 0, infoLog := []
    activeAttribs := ["vertex"]
    attribLocation := fun _ => 0
    activeUniforms := ["Clock"]
    uniformLocation := fun _ => 5
    subroutineUniforms := fun _ => []
    subroutineName := fun _ _ => "" }

/-- A failed link for which the driver has the log `error: main missing` and a line break. -/
def replyBroken : LinkReply :=
  { linkStatus := GL_FALSE, infoLogLength := 21
    infoLog := "error: main missing".data ++ [Char.ofNat 10]
    activeAttribs := [], attribLocation := fun _ => -1
    activeUniforms := [], uniformLocation := fun _ => -1
    subroutineUniforms := fun _ => []
    subroutineName := fun _ _ => "" }

/-- A failed link for which the driver has no log text. -/
def replySilent : LinkReply :=
  { linkStatus := GL_FALSE, infoLogLength := 0, infoLog := []
    activeAttribs := [], attribLocation := fun _ => -1
    activeUniforms := [], uniformLocation := fun _ => -1
    subroutineUniforms := fun _ => []
    subroutineName := fun _ _ => "" }

/-- A successful link in which the driver enumerates `foo[0]` at location 3 and then a
uniform named `foo` at location 7. -/
def replyBaseNameClash : LinkReply :=
  { linkStatus := GL_TRUE, infoLogLength := 0, infoLog := []
    activeAttribs := [], attribLocation := fun _ => -1
    activeUniforms := ["foo[0]", "foo"]
    uniformLocation := fun name => if name = "foo" then 7 else 3
    subroutineUniforms := fun _ => []
    subroutineName := fun _ _ => "" }

/-- A successful link in which the driver enumerates `foo[0]` at location 3 and then
`foo[0][0]` at location 9. -/
def replyNestedClash : LinkReply :=
  { linkStatus := GL_TRUE, infoLogLength := 0, infoLog := []
    activeAttribs := [], attribLocation := fun _ => -1
    activeUniforms := ["foo[0]", "foo[0][0]"]
    uniformLocation := fun name => if name = "foo[0][0]" then 9 else 3
    subroutineUniforms := fun _ => []
    subroutineName := fun _ _ => "" }

/-- A file system in which every file exists, opens and holds the text `void main()`. -/
def diskComplete : String → FileProbe :=
  fun _ => { status := .ok true, file_size := .ok 11, opens := true, content := "void main()" }

/-- A file system in which no file exists. -/
def diskEmpty : String → FileProbe :=
  fun _ => { status := .ok false, file_size := .ok 0, opens := false, content := "" }

/-- Whether a POSIX path has a file name: it is not empty and does not end in `/`. -/
def posix_has_filename (p : String) : Bool :=
  match p.data.getLast? with
  | none => false
  | some c => c != Char.ofNat 47

/-- The operation `p / q` on a POSIX system: an absolute `q` replaces `p`; otherwise `q`
is appended, after a `/` when `p` has a file name. -/
def posix_append (p q : String) : String :=
  if q.data.head? = some (Char.ofNat 47) then q
  else if posix_has_filename p then p ++ "/" ++ q
  else p ++ q

/-- The operation `p.parent_path()` on a POSIX system, for a path without repeated
separators: the path without its last element and the separator before it, the root
directory staying. -/
def posix_parent_path (p : String) : String :=
  let dir := (p.data.reverse.dropWhile (fun c => c != Char.ofNat 47)).reverse
  let stem := (dir.reverse.dropWhile (fun c => c == Char.ofNat 47)).reverse
  if stem = [] then (if dir = [] then "" else "/") else String.mk stem

/-- The path operations of a POSIX system. -/
def posixPaths : PathLib :=
  { parent_path := posix_parent_path, append := posix_append }

/-- A rebuild in which both files load, both shaders compile and the link succeeds. -/
def envGood : RebuildEnv :=
  { GetExecPath := .ok "/opt/sky/app", paths := posixPaths, fs := diskComplete, program := 2
    compile := fun _ _ => (true, ""), linkReply := replyLinked }

/-- A rebuild that finds no shader file. -/
def envNoFiles : RebuildEnv :=
  { GetExecPath := .ok "/opt/sky/app", paths := posixPaths, fs := diskEmpty, program := 2
    compile := fun _ _ => (true, ""), linkReply := replyLinked }

/-- A rebuild in which the fragment shader does not compile. -/
def envBadFragment : RebuildEnv :=
  { GetExecPath := .ok "/opt/sky/app", paths := posixPaths, fs := diskComplete, program := 2
    compile := fun type _ =>
      if type = GL_FRAGMENT_SHADER then (false, "0:1: unexpected token") else (true, "")
    linkReply := replyLinked }

/-- A rebuild in which the fragment shader does not compile and the compiler's message
names the operator `%`. -/
def envPercent : RebuildEnv :=
  { GetExecPath := .ok "/opt/sky/app", paths := posixPaths, fs := diskComplete, program := 2
    compile := fun type _ =>
      if type = GL_FRAGMENT_SHADER then
        (false, "0:3(10): error: operator % is reserved in GLSL 1.10")
      else (true, "")
    linkReply := replyLinked }

/-- A rebuild during which the path of the executable cannot be resolved. -/
def envNoExecPath : RebuildEnv :=
  { GetExecPath := .error "filesystem error: cannot make canonical path"
    paths := posixPaths, fs := diskComplete, program := 2
    compile := fun _ _ => (true, ""), linkReply := replyLinked }

/-- A rebuild of a program installed in the root directory, where no file exists. -/
def envRootNoFiles : RebuildEnv :=
  { GetExecPath := .ok "/app", paths := posixPaths, fs := diskEmpty, program := 2
    compile := fun _ _ => (true, ""), linkReply := replyLinked }

/-- A rebuild in which the link fails. -/
def envBadLink : RebuildEnv :=
  { GetExecPath := .ok "/opt/sky/app", paths := posixPaths, fs := diskComplete, program := 2
    compile := fun _ _ => (true, ""), linkReply := replyBroken }

/-- The state in which `RenderFrame` is first entered when the flag is clear: a program
object that was never linked and no message. -/
def stateFresh : RenderState :=
  { shader_program_is_initialized := false
    shader_program := ShaderProgram.create 1
    last_error_message := "" }

/-- A state with a linked program on display, an old message and the flag dirty. -/
def stateRunningDirty : RenderState :=
  { shader_program_is_initialized := false
    shader_program := (link (ShaderProgram.create 1) replyRelinked).2
    last_error_message := "old message" }

/-- Arguments for one call of every uniform setter. -/
def argsSample : UniformArgs :=
  { f1 := 0x3FC00000, f2 := 0, f3 := 0, f4 := 0, i1 := -1, i2 := 2, i3 := 3, i4 := 4
    u1 := 1, u2 := 2, u3 := 3, u4 := 4, fptr := [0, 0, 0, 0], iptr := [1, 2], uptr := [7]
    count := 1, transpose := 0 }

/-- The state before the first frame: the flag as `std::atomic_flag shader_program_is_initialized;`
at namespace scope leaves it, clear; `shader_program` default-constructed on entry to the
first `RenderFrame`, with the handle `glCreateProgram()` returns; `last_error_message`
empty. -/
def initialState (handle : GLuint) : RenderState :=
  { shader_program_is_initialized := false
    shader_program := ShaderProgram.create handle
    last_error_message := "" }

/-- The two threads before the first frame. -/
def System.initial (handle : GLuint) : System :=
  { pc := Pc.frameStart, render := initialState handle, rebuilds := 0 }

/-- A failed link whose log `bad` does not end in a line break. -/
def replyTerse : LinkReply :=
  { linkStatus := GL_FALSE, infoLogLength := 4, infoLog := "bad".data
    activeAttribs := [], attribLocation := fun _ => -1
    activeUniforms := [], uniformLocation := fun _ => -1
    subroutineUniforms := fun _ => []
    subroutineName := fun _ _ => "" }

/-! ## The subroutine loops, stage by stage, for the proofs -/

/-- The stage kinds `link()` passes to `retrieveSubroutines`, in the order of the source. -/
def stageKinds : List GLenum :=
  [GL_VERTEX_SHADER, GL_GEOMETRY_SHADER, GL_TESS_CONTROL_SHADER, GL_TESS_EVALUATION_SHADER,
    GL_COMPUTE_SHADER, GL_FRAGMENT_SHADER]

/-- The assignments `subroutines[name] = s[j]` of the inner loop, in order. -/
def subroutineAssignments (gpu : LinkReply) (type : GLenum) (s : List GLint) :
    List (String × GLint) :=
  s.map (fun sj => (gpu.subroutineName type sj, sj))

/-- One pass of the outer loop of `retrieveSubroutines(type)`, seen on the stage's own
sub-map: the entry of the subroutine uniform gets `uniform = i` and the inner loop's
assignments. -/
def retrieveSubroutineUniform (gpu : LinkReply) (type : GLenum) (i : Nat)
    (entry : String × List GLint) (stage : SubroutineMap) : SubroutineMap :=
  stage.insert entry.1
    { uniform := i
      subroutines :=
        assignAll ((stage.lookup entry.1).getD { uniform := 0, subroutines := ∅ }).subroutines
          (subroutineAssignments gpu type entry.2) }

/-- The outer loop of `retrieveSubroutines(type)` from index `i` on, seen on the stage's
own sub-map. -/
def retrieveStageFrom (gpu : LinkReply) (type : GLenum) :
    Nat → List (String × List GLint) → SubroutineMap → SubroutineMap
  | _, [], stage => stage
  | i, entry :: rest, stage =>
    retrieveStageFrom gpu type (i + 1) rest (retrieveSubroutineUniform gpu type i entry stage)

/-- What `retrieveSubroutines(type)` makes of the stage's entry in `_subroutines`: nothing
when the driver reports no subroutine uniform, else the old sub-map (an empty one if there
was none) run through the loop. -/
def stageAfter (gpu : LinkReply) (type : GLenum) (old : Option SubroutineMap) :
    Option SubroutineMap :=
  match gpu.subroutineUniforms type with
  | [] => old
  | entry :: rest => some (retrieveStageFrom gpu type 0 (entry :: rest) (old.getD ∅))

/-- A successful link of a program whose fragment stage has the subroutine uniform `shade`
with the compatible subroutines `flat` (index 0) and `smooth` (index 1). -/
def replyShaded : LinkReply :=
  { linkStatus := GL_TRUE, infoLogLength := 0, infoLog := []
    activeAttribs := ["position"]
    attribLocation := fun _ => 0
    activeUniforms := ["Time"]
    uniformLocation := fun _ => 2
    subroutineUniforms := fun type =>
      if type = GL_FRAGMENT_SHADER then [("shade", [0, 1])] else []
    subroutineName := fun _ index => if index = 0 then "flat" else "smooth" }

/-- A successful link in which the driver enumerates two subroutine uniforms of the
fragment stage under the same name `pick`. -/
def replyTwins : LinkReply :=
  { linkStatus := GL_TRUE, infoLogLength := 0, infoLog := []
    activeAttribs := [], attribLocation := fun _ => -1
    activeUniforms := [], uniformLocation := fun _ => -1
    subroutineUniforms := fun type =>
      if type = GL_FRAGMENT_SHADER then [("pick", [0]), ("pick", [1])] else []
    subroutineName := fun _ index => if index = 0 then "flat" else "smooth" }

/-- A successful link in which the driver names both compatible subroutines of `pick`,
indices 0 and 1, `same`. -/
def replyHomonyms : LinkReply :=
  { linkStatus := GL_TRUE, infoLogLength := 0, infoLog := []
    activeAttribs := [], attribLocation := fun _ => -1
    activeUniforms := [], uniformLocation := fun _ => -1
    subroutineUniforms := fun type =>
      if type = GL_FRAGMENT_SHADER then [("pick", [0, 1])] else []
    subroutineName := fun _ _ => "same" }

/-! ## Lemmas on assignments -/

theorem assignAll_append (m : HandleMap) (ws vs : List (String × GLint)) :
    assignAll m (ws ++ vs) = assignAll (assignAll m ws) vs := by
  simp [assignAll, List.foldl_append]

theorem lookup_assignAll (k : String) (ws : List (String × GLint)) (m : HandleMap) :
    (assignAll m ws).lookup k =
      match lastAssigned k ws with
      | some v => some v
      | none => m.lookup k := by
  induction ws generalizing m with
  | nil => simp [assignAll, lastAssigned]
  | cons w ws ih =>
    have h : assignAll m (w :: ws) = assignAll (m.insert w.1 w.2) ws := rfl
    rw [h, ih]
    simp only [lastAssigned]
    cases hl : lastAssigned k ws with
    | some v => simp
    | none =>
      by_cases hk : w.1 = k
      · subst hk; simp [Finmap.lookup_insert]
      · have hk2 : k ≠ w.1 := fun e => hk e.symm
        simp [hk, Finmap.lookup_insert_of_ne _ hk2]

theorem lastAssigned_eq_none (k : String) (ws : List (String × GLint)) :
    lastAssigned k ws = none ↔ ∀ w ∈ ws, w.1 ≠ k := by
  induction ws with
  | nil => simp [lastAssigned]
  | cons w ws ih =>
    simp only [lastAssigned, List.mem_cons, forall_eq_or_imp]
    cases hl : lastAssigned k ws with
    | some v =>
      simp only [false_iff, not_and, reduceCtorEq]
      intro _ hall
      rw [(ih).2 hall] at hl
      cases hl
    | none =>
      have := ih.1 hl
      by_cases hk : w.1 = k
      · simp [hk]
      · simp only [hk, if_false, ne_eq, not_false_eq_true, true_and, true_iff]
        exact this

theorem lastAssigned_of_forall (k : String) (v : GLint) (ws : List (String × GLint))
    (hall : ∀ w ∈ ws, w.1 = k → w.2 = v) (hex : ∃ w ∈ ws, w.1 = k) :
    lastAssigned k ws = some v := by
  induction ws with
  | nil => simp at hex
  | cons w ws ih =>
    simp only [lastAssigned]
    cases hl : lastAssigned k ws with
    | some u =>
      have hnot : ¬ ∀ x ∈ ws, x.1 ≠ k := by
        intro hn
        rw [(lastAssigned_eq_none k ws).2 hn] at hl
        cases hl
      push_neg at hnot
      have := ih (fun x hx => hall x (List.mem_cons_of_mem _ hx)) hnot
      rw [this] at hl
      simpa using hl.symm
    | none =>
      have hn := (lastAssigned_eq_none k ws).1 hl
      obtain ⟨x, hx, hxk⟩ := hex
      rcases List.mem_cons.1 hx with rfl | hx2
      · simp [hxk, hall x (List.mem_cons_self _ _) hxk]
      · exact absurd hxk (hn x hx2)

theorem lastAssigned_append_of_some (k : String) (v : GLint) (ws vs : List (String × GLint))
    (h : lastAssigned k vs = some v) : lastAssigned k (ws ++ vs) = some v := by
  induction ws with
  | nil => exact h
  | cons w ws ih =>
    have e : lastAssigned k (w :: ws ++ vs) =
        match lastAssigned k (ws ++ vs) with
        | some v => some v
        | none => if w.1 = k then some w.2 else none := rfl
    rw [e, ih]

theorem mem_assignAll (k : String) (ws : List (String × GLint)) (m : HandleMap) :
    k ∈ assignAll m ws ↔ k ∈ m ∨ ∃ w ∈ ws, w.1 = k := by
  induction ws generalizing m with
  | nil => simp [assignAll]
  | cons w ws ih =>
    have h : assignAll m (w :: ws) = assignAll (m.insert w.1 w.2) ws := rfl
    rw [h, ih, Finmap.mem_insert]
    constructor
    · rintro ((h1 | h1) | ⟨x, hx, hxk⟩)
      · exact Or.inr ⟨w, List.mem_cons_self _ _, h1.symm⟩
      · exact Or.inl h1
      · exact Or.inr ⟨x, List.mem_cons_of_mem _ hx, hxk⟩
    · rintro (h1 | ⟨x, hx, hxk⟩)
      · exact Or.inl (Or.inr h1)
      · rcases List.mem_cons.1 hx with rfl | hx2
        · exact Or.inl (Or.inl hxk.symm)
        · exact Or.inr ⟨x, hx2, hxk⟩

theorem assignAll_idem (m : HandleMap) (ws : List (String × GLint)) :
    assignAll (assignAll m ws) ws = assignAll m ws := by
  apply Finmap.ext_lookup
  intro k
  rw [lookup_assignAll k ws (assignAll m ws), lookup_assignAll k ws m]
  cases lastAssigned k ws <;> rfl


/-! ## Lemmas on the array suffix -/

theorem mismatch_append (xs t : List Char) : mismatch xs (xs ++ t) = [] := by
  induction xs with
  | nil => simp [mismatch]
  | cons a as ih => simp [mismatch, ih]

theorem mismatch_eq_nil (xs l : List Char) (h : mismatch xs l = []) : ∃ t, l = xs ++ t := by
  induction xs generalizing l with
  | nil => exact ⟨l, rfl⟩
  | cons a as ih =>
    cases l with
    | nil => simp [mismatch] at h
    | cons b bs =>
      by_cases hab : a = b
      · subst hab
        simp only [mismatch, if_true] at h
        obtain ⟨t, ht⟩ := ih bs h
        exact ⟨t, by simp [ht]⟩
      · simp [mismatch, hab] at h

theorem arraySuffix_length : arraySuffix.length = 3 := by decide

theorem endsWithArraySuffix_append (s : String) : endsWithArraySuffix (s ++ "[0]") = true := by
  have h : (s ++ "[0]").data.reverse = arraySuffix.data.reverse ++ s.data.reverse := by
    simp [arraySuffix]
  rw [endsWithArraySuffix, h, mismatch_append]
  rfl

theorem stripArraySuffix_append (s : String) : stripArraySuffix (s ++ "[0]") = s := by
  have hl : (s ++ "[0]").length = s.data.length + 3 := by
    rw [String.length_append]
    rfl
  rw [stripArraySuffix, hl, arraySuffix_length, Nat.add_sub_cancel, String.data_append,
    List.take_left']
  rfl

theorem eq_append_of_endsWithArraySuffix (name : String) (h : endsWithArraySuffix name = true) :
    name = stripArraySuffix name ++ "[0]" := by
  have h2 : mismatch arraySuffix.data.reverse name.data.reverse = [] := by
    simpa [endsWithArraySuffix] using h
  obtain ⟨t, ht⟩ := mismatch_eq_nil _ _ h2
  have hd : name.data = t.reverse ++ arraySuffix.data := by
    have := congrArg List.reverse ht
    simpa using this
  have hn : name = String.mk t.reverse ++ "[0]" := by
    apply String.ext
    rw [hd, String.data_append]
    rfl
  rw [hn, stripArraySuffix_append]


/-! ## Lemmas on `retrieveLocations` and `link` -/

theorem retrieveUniform_eq (gpu : LinkReply) (m : HandleMap) (name : String) :
    retrieveUniform gpu m name = assignAll m (uniformWrites gpu name) := by
  unfold retrieveUniform uniformWrites
  by_cases h : endsWithArraySuffix name = true <;> simp [h, assignAll]

theorem foldl_retrieveUniform (gpu : LinkReply) (names : List String) (m : HandleMap) :
    names.foldl (retrieveUniform gpu) m = assignAll m (uniformAssignments gpu names) := by
  induction names generalizing m with
  | nil => rfl
  | cons name names ih =>
    rw [List.foldl_cons, ih, retrieveUniform_eq, uniformAssignments, assignAll_append]

theorem foldl_retrieveAttrib (gpu : LinkReply) (names : List String) (m : HandleMap) :
    names.foldl (retrieveAttrib gpu) m = assignAll m (attribAssignments gpu names) := by
  induction names generalizing m with
  | nil => rfl
  | cons name names ih =>
    rw [List.foldl_cons, ih]
    rfl

theorem uniformAssignments_append (gpu : LinkReply) (xs ys : List String) :
    uniformAssignments gpu (xs ++ ys) = uniformAssignments gpu xs ++ uniformAssignments gpu ys := by
  induction xs with
  | nil => rfl
  | cons x xs ih =>
    have e : uniformAssignments gpu (x :: xs ++ ys) =
        uniformWrites gpu x ++ uniformAssignments gpu (xs ++ ys) := rfl
    rw [e, ih, uniformAssignments, List.append_assoc]

theorem mem_uniformAssignments (gpu : LinkReply) (names : List String) (w : String × GLint) :
    w ∈ uniformAssignments gpu names ↔
      ∃ name ∈ names, w.2 = storedLocation (gpu.uniformLocation name) ∧
        (w.1 = name ∨ (endsWithArraySuffix name = true ∧ w.1 = stripArraySuffix name)) := by
  induction names with
  | nil => simp [uniformAssignments]
  | cons name names ih =>
    rw [uniformAssignments, List.mem_append, ih]
    constructor
    · rintro (h | ⟨n, hn, h⟩)
      · refine ⟨name, List.mem_cons_self _ _, ?_⟩
        unfold uniformWrites at h
        rcases List.mem_cons.1 h with rfl | h2
        · exact ⟨rfl, Or.inl rfl⟩
        · by_cases he : endsWithArraySuffix name = true
          · rw [if_pos he] at h2
            rcases List.mem_singleton.1 h2 with rfl
            exact ⟨rfl, Or.inr ⟨he, rfl⟩⟩
          · rw [if_neg he] at h2
            cases h2
      · exact ⟨n, List.mem_cons_of_mem _ hn, h⟩
    · rintro ⟨n, hn, hv, hk⟩
      rcases List.mem_cons.1 hn with rfl | hn2
      · left
        unfold uniformWrites
        rcases hk with hk | ⟨he, hk⟩
        · exact List.mem_cons.2 (Or.inl (Prod.ext hk hv))
        · rw [if_pos he]
          exact List.mem_cons_of_mem _ (List.mem_singleton.2 (Prod.ext hk hv))
      · exact Or.inr ⟨n, hn2, hv, hk⟩

theorem link_fst (p : ShaderProgram) (gpu : LinkReply) :
    (link p gpu).1 = true ↔ gpu.linkStatus ≠ GL_FALSE := by
  unfold link
  by_cases h : gpu.linkStatus = GL_FALSE
  · by_cases h2 : 1 < gpu.infoLogLength <;> simp [h, h2]
  · simp [h]

theorem link_success_attribs (p : ShaderProgram) (gpu : LinkReply)
    (h : gpu.linkStatus ≠ GL_FALSE) :
    (link p gpu).2._attribs = assignAll p._attribs (attribAssignments gpu gpu.activeAttribs) := by
  rw [← foldl_retrieveAttrib]
  simp [link, h, retrieveSubroutines, retrieveLocations]

theorem link_success_uniforms (p : ShaderProgram) (gpu : LinkReply)
    (h : gpu.linkStatus ≠ GL_FALSE) :
    (link p gpu).2._uniforms =
      assignAll p._uniforms (uniformAssignments gpu gpu.activeUniforms) := by
  rw [← foldl_retrieveUniform]
  simp [link, h, retrieveSubroutines, retrieveLocations]

theorem link_success_log (p : ShaderProgram) (gpu : LinkReply)
    (h : gpu.linkStatus ≠ GL_FALSE) : (link p gpu).2._log = "" := by
  simp [link, h, retrieveSubroutines, retrieveLocations]

theorem link_handle (p : ShaderProgram) (gpu : LinkReply) :
    (link p gpu).2._handle = p._handle := by
  unfold link
  by_cases h : gpu.linkStatus = GL_FALSE
  · by_cases h2 : 1 < gpu.infoLogLength <;> simp [h, h2]
  · simp [h, retrieveSubroutines, retrieveLocations]


/-- After a failed link with a reported log length above 1, the driver writes at least one
character, so the store `infoLog[logLength - 1]` of `link` is at an index inside the
buffer of the reported length. -/
theorem link_store_in_bounds (gpu : LinkReply) (buf : List Char)
    (hs : gpu.linkStatus = GL_FALSE) (hl : 1 < gpu.infoLogLength) :
    1 ≤ (glGetProgramInfoLog gpu.infoLogLength.toNat gpu.infoLog buf).1 ∧
      (glGetProgramInfoLog gpu.infoLogLength.toNat gpu.infoLog buf).1 - 1 <
        gpu.infoLogLength.toNat := by
  have h1 : 1 ≤ gpu.infoLog.length := by
    have := gpu.infoLogWritten hs hl
    cases hlog : gpu.infoLog with
    | nil => exact absurd hlog this
    | cons c cs => simp
  have hl2 : (1 : Int) < gpu.infoLogLength := hl
  have h2 : 2 ≤ Int.toNat gpu.infoLogLength := by omega
  simp only [glGetProgramInfoLog]
  omega

theorem uniformAssignments_congr (gpu1 gpu2 : LinkReply) (names : List String)
    (h : ∀ n ∈ names, gpu2.uniformLocation n = gpu1.uniformLocation n) :
    uniformAssignments gpu2 names = uniformAssignments gpu1 names := by
  induction names with
  | nil => rfl
  | cons name names ih =>
    rw [uniformAssignments, uniformAssignments,
      ih (fun n hn => h n (List.mem_cons_of_mem _ hn))]
    unfold uniformWrites
    rw [h name (List.mem_cons_self _ _)]

theorem attribAssignments_congr (gpu1 gpu2 : LinkReply) (names : List String)
    (h : ∀ n ∈ names, gpu2.attribLocation n = gpu1.attribLocation n) :
    attribAssignments gpu2 names = attribAssignments gpu1 names := by
  unfold attribAssignments
  apply List.map_congr_left
  intro n hn
  rw [h n hn]

/-! ## Lemmas on the reload loop -/

theorem cString_idem (buf : List Char) : cString (cString buf) = cString buf := by
  unfold cString
  induction buf with
  | nil => rfl
  | cons c cs ih =>
    by_cases h : (c != NUL) = true
    · simp only [List.takeWhile_cons, h, if_true, ih]
    · simp only [List.takeWhile_cons, h, if_false, List.takeWhile_nil, Bool.false_eq_true]

theorem cString_of_not_mem (buf : List Char) (h : NUL ∉ buf) : cString buf = buf := by
  unfold cString
  rw [List.takeWhile_eq_self_iff]
  intro c hc
  have : c ≠ NUL := fun e => h (e ▸ hc)
  simpa using this

theorem what_of_not_mem (text : String) (h : NUL ∉ text.data) : what text = text := by
  unfold what
  rw [cString_of_not_mem _ h]

theorem what_getLog_link_create (handle : GLuint) (gpu : LinkReply) :
    what (getLog (link (ShaderProgram.create handle) gpu).2) =
      getLog (link (ShaderProgram.create handle) gpu).2 := by
  unfold link getLog what
  by_cases h : gpu.linkStatus = GL_FALSE
  · by_cases h2 : 1 < gpu.infoLogLength
    · simp [h, h2, cString_idem]
    · simp only [h, h2, if_true, if_false]
      rfl
  · simp only [h, if_false, retrieveSubroutines, retrieveLocations]
    rfl

theorem testAndSet_eq (st : RenderState) :
    RenderFrame.testAndSet st =
      (st.shader_program_is_initialized, { st with shader_program_is_initialized := true }) :=
  rfl

theorem RenderFrame_clean (st : RenderState) (env : RebuildEnv) (time : GLfloat)
    (h : st.shader_program_is_initialized = true) : (RenderFrame st env time).1 = st := by
  cases st with
  | mk flag program message =>
    simp only at h
    subst h
    rfl

theorem RenderFrame_dirty (st : RenderState) (env : RebuildEnv) (time : GLfloat)
    (h : st.shader_program_is_initialized = false) :
    (RenderFrame st env time).1 =
      RenderFrame.rebuild { st with shader_program_is_initialized := true } env := by
  simp [RenderFrame, testAndSet_eq, h]

theorem rebuild_flag (st : RenderState) (env : RebuildEnv) :
    (RenderFrame.rebuild st env).shader_program_is_initialized =
      st.shader_program_is_initialized := by
  unfold RenderFrame.rebuild
  split <;> rfl


theorem GetExecDir_error (env : RebuildEnv) (e : String) (h : env.GetExecPath = .error e) :
    GetExecDir env = .error e := by
  unfold GetExecDir
  rw [h]
  rfl

theorem GetExecDir_ok (env : RebuildEnv) (exe : String) (h : env.GetExecPath = .ok exe) :
    GetExecDir env = .ok (env.paths.parent_path exe) := by
  unfold GetExecDir
  rw [h]
  rfl

theorem GetShaderPath_error (env : RebuildEnv) (type : GLenum) (e : String)
    (ht : type ∈ [GL_VERTEX_SHADER, GL_FRAGMENT_SHADER])
    (h : env.GetExecPath = .error e) : GetShaderPath env type = .error e := by
  simp only [List.mem_cons, List.mem_singleton, List.not_mem_nil, or_false] at ht
  rcases ht with rfl | rfl
  · unfold GetShaderPath
    rw [if_pos rfl, GetExecDir_error env e h]
    rfl
  · unfold GetShaderPath
    rw [if_neg (by decide), if_pos rfl, GetExecDir_error env e h]
    rfl

theorem GetShaderPath_ok (env : RebuildEnv) (type : GLenum) (exe : String)
    (ht : type ∈ [GL_VERTEX_SHADER, GL_FRAGMENT_SHADER])
    (h : env.GetExecPath = .ok exe) : ∃ path, GetShaderPath env type = .ok path := by
  simp only [List.mem_cons, List.mem_singleton, List.not_mem_nil, or_false] at ht
  rcases ht with rfl | rfl
  · unfold GetShaderPath
    rw [if_pos rfl, GetExecDir_ok env exe h]
    exact ⟨_, rfl⟩
  · unfold GetShaderPath
    rw [if_neg (by decide), if_pos rfl, GetExecDir_ok env exe h]
    exact ⟨_, rfl⟩

theorem loadShader_of_no_path (env : RebuildEnv) (type : GLenum) (e : String)
    (hp : GetShaderPath env type = .error e) : loadShader env type = .error e := by
  unfold loadShader
  rw [hp]
  rfl

theorem loadShader_of_path (env : RebuildEnv) (type : GLenum) (path : String)
    (hp : GetShaderPath env type = .ok path) :
    loadShader env type =
      match LoadTextFile env.fs path with
      | .error e => .error e
      | .ok source =>
        if (env.compile type source).1 = true then .ok () else .error (env.compile type source).2 := by
  unfold loadShader
  rw [hp]
  simp only [bind, Except.bind]
  cases h : LoadTextFile env.fs path with
  | error e => rfl
  | ok source =>
    by_cases hc : (env.compile type source).1 = true
    · simp [hc, pure, Except.pure]
    · simp [hc, pure, Except.pure, throw, throwThe, MonadExceptOf.throw]

theorem LoadShaders_eq (env : RebuildEnv) (v f : String) :
    LoadShaders env v f =
      match loadShader env GL_VERTEX_SHADER with
      | .error e => .error e
      | .ok _ =>
        match loadShader env GL_FRAGMENT_SHADER with
        | .error e => .error e
        | .ok _ =>
          if (link (ShaderProgram.create env.program) env.linkReply).1 = true then
            .ok (link (ShaderProgram.create env.program) env.linkReply).2
          else .error (getLog (link (ShaderProgram.create env.program) env.linkReply).2) := by
  unfold LoadShaders
  simp only [bind, Except.bind]
  cases h1 : loadShader env GL_VERTEX_SHADER with
  | error e => rfl
  | ok u =>
    cases h2 : loadShader env GL_FRAGMENT_SHADER with
    | error e => rfl
    | ok u2 =>
      by_cases hl : (link (ShaderProgram.create env.program) env.linkReply).1 = true
      · simp [hl, pure, Except.pure]
      · simp [hl, pure, Except.pure, throw, throwThe, MonadExceptOf.throw]


theorem tryLoadShaders_eq (env : RebuildEnv) (v f : String) :
    RenderFrame.tryLoadShaders env = LoadShaders env v f := by
  cases hx : env.GetExecPath with
  | error e =>
    have h1 : RenderFrame.tryLoadShaders env = .error e := by
      unfold RenderFrame.tryLoadShaders
      rw [GetExecDir_error env e hx]
      rfl
    have h2 : loadShader env GL_VERTEX_SHADER = .error e :=
      loadShader_of_no_path env _ e (GetShaderPath_error env _ e (by simp) hx)
    rw [h1, LoadShaders_eq, h2]
  | ok exe =>
    unfold RenderFrame.tryLoadShaders
    rw [GetExecDir_ok env exe hx]
    rfl

theorem loadShader_error (env : RebuildEnv) (type : GLenum) (path message : String)
    (hp : GetShaderPath env type = .ok path)
    (h : loadShader env type = .error message) :
    LoadTextFile env.fs path = .error message ∨
      ∃ source, LoadTextFile env.fs path = .ok source ∧
        (env.compile type source).1 = false ∧ message = (env.compile type source).2 := by
  rw [loadShader_of_path env type path hp] at h
  cases hl : LoadTextFile env.fs path with
  | error e =>
    rw [hl] at h
    simp only [Except.error.injEq] at h
    exact Or.inl (by rw [h])
  | ok source =>
    rw [hl] at h
    by_cases hc : (env.compile type source).1 = true
    · simp [hc] at h
    · have h3 : (Except.error (env.compile type source).2 : Except String Unit) =
          Except.error message := by
        simpa only [if_neg hc] using h
      injection h3 with h3
      exact Or.inr ⟨source, rfl, by simpa using hc, h3.symm⟩

theorem loadShader_ok (env : RebuildEnv) (type : GLenum) (path : String) (u : Unit)
    (hp : GetShaderPath env type = .ok path)
    (h : loadShader env type = .ok u) :
    ∃ source, LoadTextFile env.fs path = .ok source ∧ (env.compile type source).1 = true := by
  rw [loadShader_of_path env type path hp] at h
  cases hl : LoadTextFile env.fs path with
  | error e =>
    rw [hl] at h
    cases h
  | ok source =>
    rw [hl] at h
    by_cases hc : (env.compile type source).1 = true
    · exact ⟨source, rfl, hc⟩
    · simp [hc] at h

theorem loadShader_error_cases (env : RebuildEnv) (type : GLenum) (message : String)
    (h : loadShader env type = .error message) :
    GetShaderPath env type = .error message ∨
      (∃ path, GetShaderPath env type = .ok path ∧
        LoadTextFile env.fs path = .error message) ∨
      ∃ path source, GetShaderPath env type = .ok path ∧
        LoadTextFile env.fs path = .ok source ∧
        (env.compile type source).1 = false ∧ message = (env.compile type source).2 := by
  cases hp : GetShaderPath env type with
  | error e =>
    rw [loadShader_of_no_path env type e hp] at h
    injection h with h
    exact Or.inl (by rw [h])
  | ok path =>
    rcases loadShader_error env type path message hp h with h1 | ⟨source, hs, hc, hm⟩
    · exact Or.inr (Or.inl ⟨path, rfl, h1⟩)
    · exact Or.inr (Or.inr ⟨path, source, rfl, hs, hc, hm⟩)

theorem loadShader_ok_cases (env : RebuildEnv) (type : GLenum) (u : Unit)
    (h : loadShader env type = .ok u) :
    ∃ path source, GetShaderPath env type = .ok path ∧
      LoadTextFile env.fs path = .ok source ∧ (env.compile type source).1 = true := by
  cases hp : GetShaderPath env type with
  | error e =>
    rw [loadShader_of_no_path env type e hp] at h
    cases h
  | ok path =>
    obtain ⟨source, hs, hc⟩ := loadShader_ok env type path u hp h
    exact ⟨path, source, rfl, hs, hc⟩

/-- The shader paths of a program installed in `/opt/sky` and of one installed in the root
directory, on a POSIX system. -/
theorem GetShaderPath_posix :
    GetShaderPath envGood GL_VERTEX_SHADER = .ok "/opt/sky/assets/vertex.glsl" ∧
      GetShaderPath envGood GL_FRAGMENT_SHADER = .ok "/opt/sky/assets/fragment.glsl" ∧
      GetShaderPath envRootNoFiles GL_VERTEX_SHADER = .ok "/assets/vertex.glsl" ∧
      GetShaderPath envNoExecPath GL_VERTEX_SHADER =
        .error "filesystem error: cannot make canonical path" :=
  ⟨rfl, rfl, rfl, rfl⟩

theorem frames_clean (frames : List (RebuildEnv × GLfloat)) (st : RenderState)
    (h : st.shader_program_is_initialized = true) :
    frames.foldl (fun s f => (RenderFrame s f.1 f.2).1) st = st := by
  induction frames with
  | nil => rfl
  | cons f frames ih => rw [List.foldl_cons, RenderFrame_clean st f.1 f.2 h, ih]

/-! ## Lemmas on the interleaving of the two threads -/

theorem System.run_cons (s : System) (e : Event) (es : List Event) :
    s.run (e :: es) = (s.step e).run es := rfl

theorem System.step_render_flag (s : System) (env : RebuildEnv) (h : s.pc ≠ Pc.frameStart) :
    (s.step (.renderStep env)).render.shader_program_is_initialized =
      s.render.shader_program_is_initialized := by
  cases hpc : s.pc with
  | frameStart => exact absurd hpc h
  | rebuilding =>
    simp only [System.step, hpc]
    exact rebuild_flag _ _
  | drawing => simp only [System.step, hpc]

theorem System.run_to_frameStart (es : List Event) (s : System)
    (hflag : s.render.shader_program_is_initialized = false)
    (hsteps : renderSteps es = s.pc.remaining) :
    (s.run es).pc = Pc.frameStart ∧
      (s.run es).render.shader_program_is_initialized = false ∧
      (s.run es).rebuilds = s.rebuilds := by
  induction es generalizing s with
  | nil =>
    cases hpc : s.pc with
    | frameStart => exact ⟨hpc, hflag, rfl⟩
    | rebuilding => rw [hpc] at hsteps; cases hsteps
    | drawing => rw [hpc] at hsteps; cases hsteps
  | cons e es ih =>
    rw [System.run_cons]
    cases e with
    | fileAction => exact ih (s.step .fileAction) rfl hsteps
    | renderStep env =>
      have hne : s.pc ≠ Pc.frameStart := by
        intro h0
        rw [h0] at hsteps
        simp [renderSteps, Pc.remaining] at hsteps
      have hfl := System.step_render_flag s env hne
      cases hpc : s.pc with
      | frameStart => exact absurd hpc hne
      | rebuilding =>
        have hpc2 : (s.step (.renderStep env)).pc = Pc.drawing := by
          simp only [System.step, hpc]
        have hrb : (s.step (.renderStep env)).rebuilds = s.rebuilds := by
          simp only [System.step, hpc]
        have := ih (s.step (.renderStep env)) (by rw [hfl, hflag]) (by
          rw [hpc2]
          rw [hpc] at hsteps
          simp only [renderSteps, Pc.remaining] at hsteps ⊢
          omega)
        rw [hrb] at this
        exact this
      | drawing =>
        have hpc2 : (s.step (.renderStep env)).pc = Pc.frameStart := by
          simp only [System.step, hpc]
        have hrb : (s.step (.renderStep env)).rebuilds = s.rebuilds := by
          simp only [System.step, hpc]
        have := ih (s.step (.renderStep env)) (by rw [hfl, hflag]) (by
          rw [hpc2]
          rw [hpc] at hsteps
          simp only [renderSteps, Pc.remaining] at hsteps ⊢
          omega)
        rw [hrb] at this
        exact this

theorem System.step_frameStart_dirty (s : System) (env : RebuildEnv)
    (hpc : s.pc = Pc.frameStart) (hflag : s.render.shader_program_is_initialized = false) :
    (s.step (.renderStep env)).pc = Pc.rebuilding ∧
      (s.step (.renderStep env)).rebuilds = s.rebuilds + 1 ∧
      (s.step (.renderStep env)).render.shader_program_is_initialized = true := by
  simp [System.step, hpc, testAndSet_eq, hflag]

theorem System.run_clean (envs : List RebuildEnv) (s : System)
    (hflag : s.render.shader_program_is_initialized = true) :
    (s.run (envs.map Event.renderStep)).rebuilds = s.rebuilds := by
  induction envs generalizing s with
  | nil => rfl
  | cons env envs ih =>
    rw [List.map_cons, System.run_cons]
    cases hpc : s.pc with
    | frameStart =>
      have h1 : (s.step (.renderStep env)).rebuilds = s.rebuilds := by
        simp [System.step, hpc, testAndSet_eq, hflag]
      have h2 : (s.step (.renderStep env)).render.shader_program_is_initialized = true := by
        simp [System.step, hpc, testAndSet_eq, hflag]
      rw [ih _ h2, h1]
    | rebuilding =>
      have h1 : (s.step (.renderStep env)).rebuilds = s.rebuilds := by
        simp only [System.step, hpc]
      have h2 : (s.step (.renderStep env)).render.shader_program_is_initialized = true := by
        rw [System.step_render_flag s env (by rw [hpc]; decide), hflag]
      rw [ih _ h2, h1]
    | drawing =>
      have h1 : (s.step (.renderStep env)).rebuilds = s.rebuilds := by
        simp only [System.step, hpc]
      have h2 : (s.step (.renderStep env)).render.shader_program_is_initialized = true := by
        rw [System.step_render_flag s env (by rw [hpc]; decide), hflag]
      rw [ih _ h2, h1]

theorem System.run_dirty_once (envs : List RebuildEnv) (s : System)
    (hflag : s.render.shader_program_is_initialized = false)
    (hlen : s.pc.remaining < envs.length) :
    (s.run (envs.map Event.renderStep)).rebuilds = s.rebuilds + 1 := by
  induction envs generalizing s with
  | nil => simp at hlen
  | cons env envs ih =>
    rw [List.map_cons, System.run_cons]
    cases hpc : s.pc with
    | frameStart =>
      obtain ⟨_, h2, h3⟩ := System.step_frameStart_dirty s env hpc hflag
      rw [System.run_clean envs _ h3, h2]
    | rebuilding =>
      have hne : s.pc ≠ Pc.frameStart := by rw [hpc]; decide
      have hpc2 : (s.step (.renderStep env)).pc = Pc.drawing := by
        simp only [System.step, hpc]
      have hrb : (s.step (.renderStep env)).rebuilds = s.rebuilds := by
        simp only [System.step, hpc]
      rw [ih (s.step (.renderStep env))
        (by rw [System.step_render_flag s env hne, hflag])
        (by rw [hpc2]; rw [hpc] at hlen; simp only [Pc.remaining, List.length_cons] at hlen ⊢
            omega), hrb]
    | drawing =>
      have hne : s.pc ≠ Pc.frameStart := by rw [hpc]; decide
      have hpc2 : (s.step (.renderStep env)).pc = Pc.frameStart := by
        simp only [System.step, hpc]
      have hrb : (s.step (.renderStep env)).rebuilds = s.rebuilds := by
        simp only [System.step, hpc]
      rw [ih (s.step (.renderStep env))
        (by rw [System.step_render_flag s env hne, hflag])
        (by rw [hpc2]; rw [hpc] at hlen; simp only [Pc.remaining, List.length_cons] at hlen ⊢
            omega), hrb]

theorem System.run_dirty_none (envs : List RebuildEnv) (s : System)
    (hlen : envs.length ≤ s.pc.remaining) :
    (s.run (envs.map Event.renderStep)).rebuilds = s.rebuilds := by
  induction envs generalizing s with
  | nil => rfl
  | cons env envs ih =>
    rw [List.map_cons, System.run_cons]
    cases hpc : s.pc with
    | frameStart => rw [hpc] at hlen; simp [Pc.remaining] at hlen
    | rebuilding =>
      have hpc2 : (s.step (.renderStep env)).pc = Pc.drawing := by
        simp only [System.step, hpc]
      have hrb : (s.step (.renderStep env)).rebuilds = s.rebuilds := by
        simp only [System.step, hpc]
      rw [ih (s.step (.renderStep env))
        (by rw [hpc2]; rw [hpc] at hlen; simp only [Pc.remaining, List.length_cons] at hlen ⊢
            omega), hrb]
    | drawing =>
      have hpc2 : (s.step (.renderStep env)).pc = Pc.frameStart := by
        simp only [System.step, hpc]
      have hrb : (s.step (.renderStep env)).rebuilds = s.rebuilds := by
        simp only [System.step, hpc]
      rw [ih (s.step (.renderStep env))
        (by rw [hpc2]; rw [hpc] at hlen; simp only [Pc.remaining, List.length_cons] at hlen ⊢
            omega), hrb]

/-- The blocks of the render thread, run from the start of a frame without a file action in
between, are `RenderFrame`: three blocks on a dirty flag, two on a clean one. -/
theorem System.run_frame (s : System) (env : RebuildEnv) (time : GLfloat)
    (hpc : s.pc = Pc.frameStart) :
    (s.run (List.replicate (if dirty s.render then 3 else 2) (Event.renderStep env))).render =
        (RenderFrame s.render env time).1 ∧
      (s.run (List.replicate (if dirty s.render then 3 else 2) (Event.renderStep env))).pc =
        Pc.frameStart := by
  cases s with
  | mk pc render rebuilds =>
    simp only at hpc
    subst hpc
    cases render with
    | mk flag program message =>
      cases flag <;> exact ⟨rfl, rfl⟩

theorem System.run_flag (es : List Event) (s : System)
    (hsteps : renderSteps es = s.pc.remaining) :
    (s.run es).pc = Pc.frameStart ∧ (s.run es).rebuilds = s.rebuilds ∧
      ((s.run es).render.shader_program_is_initialized = false ↔
        s.render.shader_program_is_initialized = false ∨ Event.fileAction ∈ es) := by
  induction es generalizing s with
  | nil =>
    cases hpc : s.pc with
    | frameStart => exact ⟨hpc, rfl, by simp [System.run]⟩
    | rebuilding => rw [hpc] at hsteps; cases hsteps
    | drawing => rw [hpc] at hsteps; cases hsteps
  | cons e es ih =>
    rw [System.run_cons]
    cases e with
    | fileAction =>
      obtain ⟨h1, h2, h3⟩ := ih (s.step .fileAction) hsteps
      refine ⟨h1, h2, ?_⟩
      have hf : (s.step Event.fileAction).render.shader_program_is_initialized = false := rfl
      simp [h3, hf]
    | renderStep env =>
      have hne : s.pc ≠ Pc.frameStart := by
        intro h0
        rw [h0] at hsteps
        simp [renderSteps, Pc.remaining] at hsteps
      have hfl := System.step_render_flag s env hne
      have hmem : Event.fileAction ∈ Event.renderStep env :: es ↔ Event.fileAction ∈ es := by
        simp
      have hrb : (s.step (.renderStep env)).rebuilds = s.rebuilds := by
        cases hpc : s.pc with
        | frameStart => exact absurd hpc hne
        | rebuilding => simp only [System.step, hpc]
        | drawing => simp only [System.step, hpc]
      have hrem : renderSteps es = (s.step (.renderStep env)).pc.remaining := by
        cases hpc : s.pc with
        | frameStart => exact absurd hpc hne
        | rebuilding =>
          have hpc2 : (s.step (.renderStep env)).pc = Pc.drawing := by
            simp only [System.step, hpc]
          rw [hpc2]
          rw [hpc] at hsteps
          simp only [renderSteps, Pc.remaining] at hsteps ⊢
          omega
        | drawing =>
          have hpc2 : (s.step (.renderStep env)).pc = Pc.frameStart := by
            simp only [System.step, hpc]
          rw [hpc2]
          rw [hpc] at hsteps
          simp only [renderSteps, Pc.remaining] at hsteps ⊢
          omega
      obtain ⟨h1, h2, h3⟩ := ih (s.step (.renderStep env)) hrem
      exact ⟨h1, by rw [h2, hrb], by rw [h3, hfl, hmem]⟩

theorem System.step_frameStart (s : System) (env : RebuildEnv) (hpc : s.pc = Pc.frameStart) :
    (s.step (.renderStep env)).render.shader_program_is_initialized = true ∧
      ((s.step (.renderStep env)).rebuilds = s.rebuilds + 1 ↔
        s.render.shader_program_is_initialized = false) ∧
      ((s.step (.renderStep env)).pc = Pc.rebuilding ↔
        s.render.shader_program_is_initialized = false) ∧
      ((s.step (.renderStep env)).pc = Pc.drawing ↔
        s.render.shader_program_is_initialized = true) := by
  cases hf : s.render.shader_program_is_initialized <;>
    simp [System.step, hpc, testAndSet_eq, hf]

/-! ## Lemmas on `retrieveSubroutines` -/

theorem foldl_subroutines (gpu : LinkReply) (type : GLenum) (s : List GLint) (h : HandleMap) :
    s.foldl (fun h sj => h.insert (gpu.subroutineName type sj) sj) h =
      assignAll h (subroutineAssignments gpu type s) := by
  unfold assignAll subroutineAssignments
  rw [List.foldl_map]

theorem retrieveSubroutinesFrom_cons (gpu : LinkReply) (type : GLenum) (i : Nat)
    (entry : String × List GLint) (rest : List (String × List GLint))
    (m : ShaderSubroutineMap) :
    retrieveSubroutinesFrom gpu type i (entry :: rest) m =
      retrieveSubroutinesFrom gpu type (i + 1) rest
        (m.insert type (retrieveSubroutineUniform gpu type i entry ((m.lookup type).getD ∅))) := by
  cases entry with
  | mk sname s =>
    simp only [retrieveSubroutinesFrom, retrieveSubroutineUniform, foldl_subroutines]

theorem retrieveSubroutinesFrom_eq (gpu : LinkReply) (type : GLenum)
    (us : List (String × List GLint)) (i : Nat) (m : ShaderSubroutineMap) :
    retrieveSubroutinesFrom gpu type i us m =
      match us with
      | [] => m
      | entry :: rest =>
        m.insert type (retrieveStageFrom gpu type i (entry :: rest) ((m.lookup type).getD ∅)) := by
  induction us generalizing i m with
  | nil => rfl
  | cons entry rest ih =>
    rw [retrieveSubroutinesFrom_cons, ih]
    cases rest with
    | nil => rfl
    | cons e2 rest2 =>
      simp only [Finmap.lookup_insert, Option.getD_some, Finmap.insert_insert]
      rfl

theorem lookup_retrieveSubroutinesFrom (gpu : LinkReply) (type : GLenum)
    (m : ShaderSubroutineMap) :
    (retrieveSubroutinesFrom gpu type 0 (gpu.subroutineUniforms type) m).lookup type =
      stageAfter gpu type (m.lookup type) := by
  rw [retrieveSubroutinesFrom_eq]
  unfold stageAfter
  cases gpu.subroutineUniforms type with
  | nil => rfl
  | cons entry rest => simp only [Finmap.lookup_insert]

theorem lookup_retrieveSubroutinesFrom_of_ne (gpu : LinkReply) (type other : GLenum)
    (hne : other ≠ type) (m : ShaderSubroutineMap) :
    (retrieveSubroutinesFrom gpu type 0 (gpu.subroutineUniforms type) m).lookup other =
      m.lookup other := by
  rw [retrieveSubroutinesFrom_eq]
  cases gpu.subroutineUniforms type with
  | nil => rfl
  | cons entry rest => simp only [Finmap.lookup_insert_of_ne _ hne]

theorem lookup_foldl_of_not_mem (gpu : LinkReply) (types : List GLenum) (type : GLenum)
    (m : ShaderSubroutineMap) (hmem : type ∉ types) :
    (types.foldl (fun h t => retrieveSubroutinesFrom gpu t 0 (gpu.subroutineUniforms t) h)
        m).lookup type = m.lookup type := by
  induction types generalizing m with
  | nil => rfl
  | cons t ts ih =>
    have h2 : type ∉ ts := fun h => hmem (List.mem_cons_of_mem _ h)
    have hne : type ≠ t := fun e => hmem (e ▸ List.mem_cons_self _ _)
    rw [List.foldl_cons, ih _ h2, lookup_retrieveSubroutinesFrom_of_ne gpu t type hne]

theorem lookup_foldl_of_mem (gpu : LinkReply) (types : List GLenum) (type : GLenum)
    (m : ShaderSubroutineMap) (hnd : types.Nodup) (hmem : type ∈ types) :
    (types.foldl (fun h t => retrieveSubroutinesFrom gpu t 0 (gpu.subroutineUniforms t) h)
        m).lookup type = stageAfter gpu type (m.lookup type) := by
  induction types generalizing m with
  | nil => cases hmem
  | cons t ts ih =>
    have hnd2 : ts.Nodup := (List.nodup_cons.1 hnd).2
    have hnt : t ∉ ts := (List.nodup_cons.1 hnd).1
    rw [List.foldl_cons]
    rcases List.mem_cons.1 hmem with rfl | h2
    · rw [lookup_foldl_of_not_mem gpu ts type _ hnt, lookup_retrieveSubroutinesFrom]
    · have hne : type ≠ t := fun e => hnt (e ▸ h2)
      rw [ih _ hnd2 h2, lookup_retrieveSubroutinesFrom_of_ne gpu t type hne]

theorem link_success_subroutines (p : ShaderProgram) (gpu : LinkReply)
    (h : gpu.linkStatus ≠ GL_FALSE) :
    (link p gpu).2._subroutines =
      stageKinds.foldl
        (fun h t => retrieveSubroutinesFrom gpu t 0 (gpu.subroutineUniforms t) h)
        p._subroutines := by
  simp [link, h, retrieveSubroutines, retrieveLocations, stageKinds]

theorem link_success_stage (p : ShaderProgram) (gpu : LinkReply) (type : GLenum)
    (h : gpu.linkStatus ≠ GL_FALSE) (hmem : type ∈ stageKinds) :
    (link p gpu).2._subroutines.lookup type =
      stageAfter gpu type (p._subroutines.lookup type) := by
  rw [link_success_subroutines p gpu h]
  exact lookup_foldl_of_mem gpu stageKinds type _ (by decide) hmem

theorem link_success_other_stage (p : ShaderProgram) (gpu : LinkReply) (type : GLenum)
    (h : gpu.linkStatus ≠ GL_FALSE) (hmem : type ∉ stageKinds) :
    (link p gpu).2._subroutines.lookup type = p._subroutines.lookup type := by
  rw [link_success_subroutines p gpu h]
  exact lookup_foldl_of_not_mem gpu stageKinds type _ hmem

theorem lookup_retrieveStageFrom_of_not_mem (gpu : LinkReply) (type : GLenum)
    (us : List (String × List GLint)) (i : Nat) (stage : SubroutineMap) (name : String)
    (h : ∀ e ∈ us, e.1 ≠ name) :
    (retrieveStageFrom gpu type i us stage).lookup name = stage.lookup name := by
  induction us generalizing i stage with
  | nil => rfl
  | cons e rest ih =>
    have he : name ≠ e.1 := fun eq => h e (List.mem_cons_self _ _) eq.symm
    rw [retrieveStageFrom, ih _ _ (fun x hx => h x (List.mem_cons_of_mem _ hx))]
    exact Finmap.lookup_insert_of_ne _ he

theorem mem_retrieveStageFrom (gpu : LinkReply) (type : GLenum)
    (us : List (String × List GLint)) (i : Nat) (stage : SubroutineMap) (name : String) :
    name ∈ retrieveStageFrom gpu type i us stage ↔ name ∈ stage ∨ ∃ e ∈ us, e.1 = name := by
  induction us generalizing i stage with
  | nil => simp [retrieveStageFrom]
  | cons e rest ih =>
    rw [retrieveStageFrom, ih]
    unfold retrieveSubroutineUniform
    rw [Finmap.mem_insert]
    constructor
    · rintro ((h | h) | ⟨x, hx, hxn⟩)
      · exact Or.inr ⟨e, List.mem_cons_self _ _, h.symm⟩
      · exact Or.inl h
      · exact Or.inr ⟨x, List.mem_cons_of_mem _ hx, hxn⟩
    · rintro (h | ⟨x, hx, hxn⟩)
      · exact Or.inl (Or.inr h)
      · rcases List.mem_cons.1 hx with rfl | hx2
        · exact Or.inl (Or.inl hxn.symm)
        · exact Or.inr ⟨x, hx2, hxn⟩

theorem lookup_retrieveStageFrom (gpu : LinkReply) (type : GLenum)
    (us : List (String × List GLint)) (i : Nat) (stage : SubroutineMap) (k : Nat)
    (name : String) (s : List GLint) (hnd : (us.map Prod.fst).Nodup)
    (hk : us[k]? = some (name, s)) :
    (retrieveStageFrom gpu type i us stage).lookup name =
      some { uniform := i + k
             subroutines :=
               assignAll ((stage.lookup name).getD { uniform := 0, subroutines := ∅ }).subroutines
                 (subroutineAssignments gpu type s) } := by
  induction us generalizing i stage k with
  | nil => simp at hk
  | cons e rest ih =>
    rw [List.map_cons, List.nodup_cons] at hnd
    rw [retrieveStageFrom]
    cases k with
    | zero =>
      have he : e = (name, s) := by simpa using hk
      subst he
      rw [lookup_retrieveStageFrom_of_not_mem]
      · unfold retrieveSubroutineUniform
        rw [Finmap.lookup_insert]
        rfl
      · intro x hx hxn
        exact hnd.1 (List.mem_map.2 ⟨x, hx, hxn⟩)
    | succ k =>
      have hk2 : rest[k]? = some (name, s) := by simpa using hk
      have hmem : (name, s) ∈ rest := List.getElem?_mem hk2
      have hne : name ≠ e.1 := by
        intro eq
        exact hnd.1 (List.mem_map.2 ⟨(name, s), hmem, eq⟩)
      rw [ih (i + 1) _ k hnd.2 hk2]
      have hl : (retrieveSubroutineUniform gpu type i e stage).lookup name =
          stage.lookup name := by
        unfold retrieveSubroutineUniform
        exact Finmap.lookup_insert_of_ne _ hne
      rw [hl]
      have : i + 1 + k = i + (k + 1) := by omega
      rw [this]

theorem lookup_subroutineAssignments (gpu : LinkReply) (type : GLenum) (s : List GLint)
    (h : HandleMap) (sj : GLint) (hsj : sj ∈ s)
    (hinj : ∀ other ∈ s, gpu.subroutineName type other = gpu.subroutineName type sj →
      other = sj) :
    (assignAll h (subroutineAssignments gpu type s)).lookup (gpu.subroutineName type sj) =
      some sj := by
  rw [lookup_assignAll, lastAssigned_of_forall (gpu.subroutineName type sj) sj]
  · intro w hw hk
    obtain ⟨x, hx, rfl⟩ := List.mem_map.1 hw
    exact hinj x hx hk
  · exact ⟨(gpu.subroutineName type sj, sj), List.mem_map.2 ⟨sj, hsj, rfl⟩, rfl⟩

/-! ## Lemmas on the stored log -/

theorem cString_set_terminator (k : Nat) (l rest : List Char) (hk : k < l.length)
    (hnul : NUL ∉ l.take k) : cString ((l.take (k + 1) ++ rest).set k NUL) = l.take k := by
  induction k generalizing l with
  | zero =>
    cases l with
    | nil => simp at hk
    | cons a l =>
      have hN : (NUL != NUL) = false := by decide
      simp [cString, hN]
  | succ k ih =>
    cases l with
    | nil => simp at hk
    | cons a l =>
      have ha : a ≠ NUL := by
        intro e
        apply hnul
        simp [e]
      have hrest : NUL ∉ l.take k := by
        intro h
        apply hnul
        simp [h]
      have hlen : k < l.length := by simpa using hk
      have := ih l hlen hrest
      unfold cString at this ⊢
      simp only [List.take_succ_cons, List.cons_append, List.set_cons_succ,
        List.takeWhile_cons]
      have hne : (a != NUL) = true := by simpa using ha
      rw [hne, if_pos rfl, this]

/-- The draw block of `RenderFrame` starts with the command that
`setUniform<GLfloat>("Time", time)` issues on the active program. -/
theorem draw_head_setUniform (st : RenderState) (time : GLfloat) :
    (setUniform_GLfloat_1 st.shader_program "Time" time).1 = st.shader_program ∧
      ∃ u, (setUniform_GLfloat_1 st.shader_program "Time" time).2 = [u] ∧
        u.data = UniformData.glProgramUniform1f time ∧
        (RenderFrame.draw st time).head? =
          some (GpuCall.glProgramUniform1f u.program u.location time) :=
  ⟨rfl, _, rfl, rfl, rfl⟩

theorem printfNoArguments_of_no_percent :
    ∀ l : List Char, Char.ofNat 37 ∉ l → printfNoArguments l = some l
  | [], _ => rfl
  | [c], h => by
    have hc : c ≠ Char.ofNat 37 := fun e => h (by simp [e])
    simp [printfNoArguments, hc]
  | c :: d :: rest, h => by
    have hc : c ≠ Char.ofNat 37 := fun e => h (by simp [e])
    have ih := printfNoArguments_of_no_percent (d :: rest)
      (fun hm => h (List.mem_cons_of_mem _ hm))
    simp [printfNoArguments, hc, ih]

/-! ## The claims -/

/-- C1. Whenever the driver reports link status false, `link()` returns false and the
attribute map, the uniform map and the per-stage subroutine map are what they were before
the call; the object differs from the one before the call in its log at most. -/
theorem link_failure_leaves_introspection (p : ShaderProgram) (gpu : LinkReply)
    (h : gpu.linkStatus = GL_FALSE) :
    (link p gpu).1 = false ∧ (link p gpu).2._attribs = p._attribs ∧
      (link p gpu).2._uniforms = p._uniforms ∧
      (link p gpu).2._subroutines = p._subroutines ∧
      (link p gpu).2 = { p with _log := getLog (link p gpu).2 } := by
  unfold link getLog
  by_cases h2 : 1 < gpu.infoLogLength <;> simp [h, h2]

theorem link_failure_leaves_introspection_witness :
    (link (link (ShaderProgram.create 1) replyLinked).2 replyBroken).1 = false ∧
      (link (link (ShaderProgram.create 1) replyLinked).2 replyBroken).2._attribs =
        (link (ShaderProgram.create 1) replyLinked).2._attribs ∧
      (link (link (ShaderProgram.create 1) replyLinked).2 replyBroken).2._uniforms =
        (link (ShaderProgram.create 1) replyLinked).2._uniforms :=
  have h := link_failure_leaves_introspection (link (ShaderProgram.create 1) replyLinked).2
    replyBroken (by decide)
  ⟨h.1, h.2.1, h.2.2.1⟩

/-- What holds on every frame that finds the reload flag dirty and whose rebuild fails, the
`try` expression throwing the text `message` (supports C2): that text is the error of
resolving the executable's path, or the error of `LoadTextFile` for one of the two shader
files, or the log of a shader that did not compile, or the log of the program whose link
returned false. `RenderFrame` completes; afterwards the active program is the one from
before the frame, `last_error_message` is `what()` of the exception, which is `message`
itself when that holds no NUL character and always when it is the link log, and the flag is
clean. Any number of following frames leave the state as it is, attempting no rebuild, and
after the next `handleFileAction` the next frame does attempt one. The overlay text is the
message when the message, taken as a format, holds no `%`. -/
theorem failed_rebuild_is_contained (st : RenderState) (env : RebuildEnv) (time : GLfloat)
    (message : String)
    (hdirty : dirty st = true)
    (hfail : RenderFrame.tryLoadShaders env = .error message) :
    ((env.GetExecPath = .error message) ∨
        (∃ type ∈ [GL_VERTEX_SHADER, GL_FRAGMENT_SHADER], ∃ path,
          GetShaderPath env type = .ok path ∧
          LoadTextFile env.fs path = .error message) ∨
        (∃ type ∈ [GL_VERTEX_SHADER, GL_FRAGMENT_SHADER], ∃ path source,
          GetShaderPath env type = .ok path ∧
          LoadTextFile env.fs path = .ok source ∧
          (env.compile type source).1 = false ∧ message = (env.compile type source).2) ∨
        ((link (ShaderProgram.create env.program) env.linkReply).1 = false ∧
          message = getLog (link (ShaderProgram.create env.program) env.linkReply).2 ∧
          (RenderFrame st env time).1.last_error_message = message)) ∧
      (RenderFrame st env time).1.shader_program = st.shader_program ∧
      (RenderFrame st env time).1.last_error_message = what message ∧
      (NUL ∉ message.data → (RenderFrame st env time).1.last_error_message = message) ∧
      dirty (RenderFrame st env time).1 = false ∧
      (∀ frames : List (RebuildEnv × GLfloat),
        frames.foldl (fun s f => (RenderFrame s f.1 f.2).1) (RenderFrame st env time).1 =
          (RenderFrame st env time).1) ∧
      (∀ env2 time2, (RenderFrame (handleFileAction (RenderFrame st env time).1) env2 time2).1 =
        RenderFrame.rebuild (RenderFrame st env time).1 env2) ∧
      (Char.ofNat 37 ∉ RenderFrame.overlayFormat (RenderFrame st env time).1 →
        printfNoArguments (RenderFrame.overlayFormat (RenderFrame st env time).1) =
          some (RenderFrame.overlayFormat (RenderFrame st env time).1)) := by
  have hflag : st.shader_program_is_initialized = false := by
    simpa [dirty] using hdirty
  have hst : (RenderFrame st env time).1 =
      { st with shader_program_is_initialized := true, last_error_message := what message } := by
    rw [RenderFrame_dirty st env time hflag]
    unfold RenderFrame.rebuild
    rw [hfail]
  have hmsg : (RenderFrame st env time).1.last_error_message = what message := by rw [hst]
  have hclean : (RenderFrame st env time).1.shader_program_is_initialized = true := by rw [hst]
  refine ⟨?_, by rw [hst], hmsg, fun h => by rw [hmsg, what_of_not_mem _ h], ?_, ?_, ?_,
    printfNoArguments_of_no_percent _⟩
  · rw [tryLoadShaders_eq env "" "", LoadShaders_eq] at hfail
    have hstage : ∀ type ∈ [GL_VERTEX_SHADER, GL_FRAGMENT_SHADER],
        loadShader env type = .error message →
        (env.GetExecPath = .error message) ∨
        (∃ type ∈ [GL_VERTEX_SHADER, GL_FRAGMENT_SHADER], ∃ path,
          GetShaderPath env type = .ok path ∧
          LoadTextFile env.fs path = .error message) ∨
        (∃ type ∈ [GL_VERTEX_SHADER, GL_FRAGMENT_SHADER], ∃ path source,
          GetShaderPath env type = .ok path ∧
          LoadTextFile env.fs path = .ok source ∧
          (env.compile type source).1 = false ∧ message = (env.compile type source).2) ∨
        ((link (ShaderProgram.create env.program) env.linkReply).1 = false ∧
          message = getLog (link (ShaderProgram.create env.program) env.linkReply).2 ∧
          (RenderFrame st env time).1.last_error_message = message) := by
      intro type ht hl
      rcases loadShader_error_cases env type message hl with h | ⟨path, hp, h⟩ |
        ⟨path, source, hp, hs, hc, hm⟩
      · cases hx : env.GetExecPath with
        | error e =>
          rw [GetShaderPath_error env type e ht hx] at h
          injection h with h
          exact Or.inl (by rw [h])
        | ok exe =>
          obtain ⟨path, hp⟩ := GetShaderPath_ok env type exe ht hx
          rw [hp] at h
          cases h
      · exact Or.inr (Or.inl ⟨type, ht, path, hp, h⟩)
      · exact Or.inr (Or.inr (Or.inl ⟨type, ht, path, source, hp, hs, hc, hm⟩))
    cases h1 : loadShader env GL_VERTEX_SHADER with
    | error e =>
      rw [h1] at hfail
      injection hfail with hfail
      subst hfail
      exact hstage _ (by simp) h1
    | ok u =>
      rw [h1] at hfail
      cases h2 : loadShader env GL_FRAGMENT_SHADER with
      | error e =>
        rw [h2] at hfail
        injection hfail with hfail
        subst hfail
        exact hstage _ (by simp) h2
      | ok u2 =>
        rw [h2] at hfail
        by_cases hl : (link (ShaderProgram.create env.program) env.linkReply).1 = true
        · simp [hl] at hfail
        · have hfail : (Except.error
              (getLog (link (ShaderProgram.create env.program) env.linkReply).2) :
                Except String ShaderProgram) = Except.error message := by
            simpa only [if_neg hl] using hfail
          injection hfail with hfail
          refine Or.inr (Or.inr (Or.inr ⟨by simpa using hl, hfail.symm, ?_⟩))
          rw [hmsg, ← hfail, what_getLog_link_create]
  · simp [dirty, hclean]
  · intro frames
    exact frames_clean frames _ hclean
  · intro env2 time2
    have hd : (handleFileAction (RenderFrame st env time).1).shader_program_is_initialized
        = false := rfl
    rw [RenderFrame_dirty _ env2 time2 hd]
    congr 1
    cases hr : (RenderFrame st env time).1 with
    | mk flag program msg =>
      rw [hr] at hclean
      simp only at hclean
      subst hclean
      rfl

theorem failed_rebuild_is_contained_witness :
    (RenderFrame stateRunningDirty envBadLink 0).1.shader_program =
        stateRunningDirty.shader_program ∧
      (RenderFrame stateRunningDirty envBadLink 0).1.last_error_message =
        what "error: main missing" ∧
      dirty (RenderFrame stateRunningDirty envBadLink 0).1 = false ∧
      (RenderFrame stateRunningDirty envNoExecPath 0).1.last_error_message =
        what "filesystem error: cannot make canonical path" ∧
      (RenderFrame stateRunningDirty envRootNoFiles 0).1.last_error_message =
        what "file /assets/vertex.glsl does not exist" :=
  have h := failed_rebuild_is_contained stateRunningDirty envBadLink 0
    "error: main missing" (by decide) rfl
  ⟨h.2.1, h.2.2.1, h.2.2.2.2.1,
    (failed_rebuild_is_contained stateRunningDirty envNoExecPath 0
      "filesystem error: cannot make canonical path" (by decide) rfl).2.2.1,
    (failed_rebuild_is_contained stateRunningDirty envRootNoFiles 0
      "file /assets/vertex.glsl does not exist" (by decide) rfl).2.2.1⟩

/-- C2 (evaluation at the failing input). The flag is dirty and the fragment shader does not
compile, the compiler's log being `0:3(10): error: operator % is reserved in GLSL 1.10`.
`RenderFrame` keeps the old program, stores exactly that text in `last_error_message` and
leaves the flag clean; but it hands the text to the overlay as its format, where `% i` is
a conversion that takes an argument and none was passed: the call has no defined output,
so what is displayed is not the failure's message. A message without `%`, such as the link
log `error: main missing`, is displayed as it is. -/
theorem percent_message_is_read_as_format :
    dirty stateRunningDirty = true ∧
      RenderFrame.tryLoadShaders envPercent =
        .error "0:3(10): error: operator % is reserved in GLSL 1.10" ∧
      (RenderFrame stateRunningDirty envPercent 0).1.shader_program =
        stateRunningDirty.shader_program ∧
      (RenderFrame stateRunningDirty envPercent 0).1.last_error_message =
        "0:3(10): error: operator % is reserved in GLSL 1.10" ∧
      dirty (RenderFrame stateRunningDirty envPercent 0).1 = false ∧
      RenderFrame.overlayFormat (RenderFrame stateRunningDirty envPercent 0).1 =
        "0:3(10): error: operator % is reserved in GLSL 1.10".data ∧
      printfNoArguments
        (RenderFrame.overlayFormat (RenderFrame stateRunningDirty envPercent 0).1) = none ∧
      printfNoArguments
        (RenderFrame.overlayFormat (RenderFrame stateRunningDirty envBadLink 0).1) =
          some "error: main missing".data := by
  refine ⟨by decide, rfl, by decide, by decide, by decide, by decide, by decide, by decide⟩

/-- C3. With `markDirty` the `handleFileAction` of the listener and `takeDirtyAndClear` the
negated `test_and_set` of `RenderFrame`: `takeDirtyAndClear` returns whether the flag was
dirty and leaves it clean, touching nothing else; hence for every `N ≥ 1` and every prior
state, `N` calls of `markDirty` followed by one `takeDirtyAndClear` yield true, and the
`takeDirtyAndClear` right after yields false. -/
theorem dirty_flag_semantics (st : RenderState) :
    (takeDirtyAndClear st).1 = dirty st ∧ dirty (takeDirtyAndClear st).2 = false ∧
      (takeDirtyAndClear st).2.shader_program = st.shader_program ∧
      (takeDirtyAndClear st).2.last_error_message = st.last_error_message ∧
      ∀ N, 1 ≤ N →
        (takeDirtyAndClear (markDirty^[N] st)).1 = true ∧
          (takeDirtyAndClear (takeDirtyAndClear (markDirty^[N] st)).2).1 = false := by
  refine ⟨rfl, rfl, rfl, rfl, ?_⟩
  intro N hN
  obtain ⟨n, rfl⟩ : ∃ n, N = n + 1 := ⟨N - 1, by omega⟩
  rw [Function.iterate_succ_apply']
  exact ⟨rfl, rfl⟩

theorem dirty_flag_semantics_witness :
    (takeDirtyAndClear (markDirty^[3] stateFresh)).1 = true ∧
      (takeDirtyAndClear (takeDirtyAndClear (markDirty^[3] stateFresh)).2).1 = false :=
  (dirty_flag_semantics stateFresh).2.2.2.2 3 (by decide)

/-- C4 (evaluation at the failing input). A link fails with the log text
`error: main missing`, then a second link of the same object fails and the driver reports
an information log of length 0: `getLog()` still returns the text of the first failure,
not the empty text. -/
theorem getLog_stale_after_silent_failure :
    replySilent.linkStatus = GL_FALSE ∧ replySilent.infoLogLength ≤ 1 ∧
      getLog (links (ShaderProgram.create 1) [replyBroken]) = "error: main missing" ∧
      getLog (links (ShaderProgram.create 1) [replyBroken, replySilent]) =
        "error: main missing" := by
  decide

/-- C5 (as stated, refuted). The driver enumerates the array uniform `foo[0]` at location 3
and afterwards a uniform named `foo` at location 7: the link succeeds and `foo[0]` and `foo`
resolve to different locations. Likewise when it enumerates `foo[0]` and afterwards
`foo[0][0]` at location 9, whose alias overwrites the entry of `foo[0]`. -/
theorem array_alias_overwritten :
    ((link (ShaderProgram.create 1) replyBaseNameClash).1 = true ∧
      "foo" ++ "[0]" ∈ replyBaseNameClash.activeUniforms ∧
      getUniformLocation (link (ShaderProgram.create 1) replyBaseNameClash).2 ("foo" ++ "[0]")
        = 3 ∧
      getUniformLocation (link (ShaderProgram.create 1) replyBaseNameClash).2 "foo" = 7 ∧
      getUniformLocation (link (ShaderProgram.create 1) replyBaseNameClash).2 "foo" ≠
        getUniformLocation (link (ShaderProgram.create 1) replyBaseNameClash).2
          ("foo" ++ "[0]")) ∧
    ((link (ShaderProgram.create 1) replyNestedClash).1 = true ∧
      "foo" ++ "[0]" ∈ replyNestedClash.activeUniforms ∧
      getUniformLocation (link (ShaderProgram.create 1) replyNestedClash).2 ("foo" ++ "[0]")
        = 9 ∧
      getUniformLocation (link (ShaderProgram.create 1) replyNestedClash).2 "foo" = 3 ∧
      getUniformLocation (link (ShaderProgram.create 1) replyNestedClash).2 "foo" ≠
        getUniformLocation (link (ShaderProgram.create 1) replyNestedClash).2
          ("foo" ++ "[0]")) := by
  decide

/-- C5 (amended). After a successful `link()`, for every active uniform reported as `s`
followed by `[0]`: provided that the driver enumerates after it no active uniform named
`s`, or named `s` followed by `[0][0]`, at a location other than that of `s[0]`, both names
are keys of the uniform map and `getUniformLocation` returns for both the location of
`s[0]`, whatever else the driver reports and whatever the object held before. -/
theorem array_uniform_alias (p : ShaderProgram) (gpu : LinkReply) (s : String)
    (before after : List String)
    (hlink : (link p gpu).1 = true)
    (hs : gpu.activeUniforms = before ++ (s ++ "[0]") :: after)
    (hbase : s ∈ after → gpu.uniformLocation s = gpu.uniformLocation (s ++ "[0]"))
    (hnested : s ++ "[0]" ++ "[0]" ∈ after →
      gpu.uniformLocation (s ++ "[0]" ++ "[0]") = gpu.uniformLocation (s ++ "[0]")) :
    s ++ "[0]" ∈ (link p gpu).2._uniforms ∧ s ∈ (link p gpu).2._uniforms ∧
      getUniformLocation (link p gpu).2 (s ++ "[0]") =
        storedLocation (gpu.uniformLocation (s ++ "[0]")) ∧
      getUniformLocation (link p gpu).2 s = getUniformLocation (link p gpu).2 (s ++ "[0]") := by
  have hst := (link_fst p gpu).1 hlink
  have hu := link_success_uniforms p gpu hst
  rw [hs, uniformAssignments_append] at hu
  have hself : s ++ "[0]" ∈ (s ++ "[0]") :: after := List.mem_cons_self _ _
  have hfull : (link p gpu).2._uniforms.lookup (s ++ "[0]") =
      some (storedLocation (gpu.uniformLocation (s ++ "[0]"))) := by
    rw [hu, lookup_assignAll, lastAssigned_append_of_some (s ++ "[0]")
      (storedLocation (gpu.uniformLocation (s ++ "[0]")))]
    apply lastAssigned_of_forall
    · intro w hw hk
      obtain ⟨n, hn, hv, hcase⟩ := (mem_uniformAssignments gpu _ w).1 hw
      rcases hcase with h1 | ⟨he, h1⟩
      · rw [hv, ← h1, hk]
      · have hname := eq_append_of_endsWithArraySuffix n he
        rw [← h1, hk] at hname
        rw [hname] at hn
        rcases List.mem_cons.1 hn with hn1 | hn2
        · rw [hv, hname, hn1]
        · rw [hv, hname, hnested hn2]
    · exact ⟨(s ++ "[0]", storedLocation (gpu.uniformLocation (s ++ "[0]"))),
        (mem_uniformAssignments gpu _ _).2 ⟨s ++ "[0]", hself, rfl, Or.inl rfl⟩, rfl⟩
  have hbase2 : (link p gpu).2._uniforms.lookup s =
      some (storedLocation (gpu.uniformLocation (s ++ "[0]"))) := by
    rw [hu, lookup_assignAll, lastAssigned_append_of_some s
      (storedLocation (gpu.uniformLocation (s ++ "[0]")))]
    apply lastAssigned_of_forall
    · intro w hw hk
      obtain ⟨n, hn, hv, hcase⟩ := (mem_uniformAssignments gpu _ w).1 hw
      rcases hcase with h1 | ⟨he, h1⟩
      · have hns : n = s := by rw [← h1, hk]
        rw [hns] at hn
        rcases List.mem_cons.1 hn with hn1 | hn2
        · rw [hv, hns, ← hn1]
        · rw [hv, hns, hbase hn2]
      · have hname := eq_append_of_endsWithArraySuffix n he
        rw [← h1, hk] at hname
        rw [hv, hname]
    · exact ⟨(s, storedLocation (gpu.uniformLocation (s ++ "[0]"))),
        (mem_uniformAssignments gpu _ _).2 ⟨s ++ "[0]", hself, rfl,
          Or.inr ⟨endsWithArraySuffix_append s, (stripArraySuffix_append s).symm⟩⟩, rfl⟩
  refine ⟨Finmap.mem_iff.2 ⟨_, hfull⟩, Finmap.mem_iff.2 ⟨_, hbase2⟩, ?_, ?_⟩
  · simp [getUniformLocation, hfull]
  · simp [getUniformLocation, hfull, hbase2]

theorem array_uniform_alias_witness :
    "foo" ++ "[0]" ∈ (link (ShaderProgram.create 1) replyLinked).2._uniforms ∧
      "foo" ∈ (link (ShaderProgram.create 1) replyLinked).2._uniforms ∧
      getUniformLocation (link (ShaderProgram.create 1) replyLinked).2 ("foo" ++ "[0]") =
        storedLocation (replyLinked.uniformLocation ("foo" ++ "[0]")) ∧
      getUniformLocation (link (ShaderProgram.create 1) replyLinked).2 "foo" =
        getUniformLocation (link (ShaderProgram.create 1) replyLinked).2 ("foo" ++ "[0]") :=
  array_uniform_alias (ShaderProgram.create 1) replyLinked "foo" ["Time"] [] (by decide)
    (by decide) (by decide) (by decide)

/-- C6 (as stated, refuted). An object is linked successfully with the attribute `position`
and the uniforms `Time` and `foo[0]`, then linked successfully again while the driver
reports only the attribute `vertex` and the uniform `Clock`: `position` and `Time` are
still keys of the maps and still resolve, to their locations of the first link. -/
theorem stale_names_survive_relink :
    (link (ShaderProgram.create 1) replyLinked).1 = true ∧
      (link (link (ShaderProgram.create 1) replyLinked).2 replyRelinked).1 = true ∧
      "position" ∉ replyRelinked.activeAttribs ∧
      "position" ∈ (link (link (ShaderProgram.create 1) replyLinked).2 replyRelinked).2._attribs ∧
      getAttribLocation (link (link (ShaderProgram.create 1) replyLinked).2 replyRelinked).2
        "position" = 0 ∧
      "Time" ∉ replyRelinked.activeUniforms ∧ "Time" ++ "[0]" ∉ replyRelinked.activeUniforms ∧
      "Time" ∈ (link (link (ShaderProgram.create 1) replyLinked).2 replyRelinked).2._uniforms ∧
      getUniformLocation (link (link (ShaderProgram.create 1) replyLinked).2 replyRelinked).2
        "Time" = 2 ∧
      getAttribLocation (link (link (ShaderProgram.create 1) replyLinked).2 replyRelinked).2
        "position" ≠ -1 ∧
      getUniformLocation (link (link (ShaderProgram.create 1) replyLinked).2 replyRelinked).2
        "Time" ≠ -1 := by
  decide

/-- C6 (amended). After every successful `link()`, re-links included, the keys of the
attribute map are the keys it had before the call together with the active attribute names
reported for this link, and the keys of the uniform map are the keys it had before the call
together with the reported active uniform names and their `[0]`-stripped aliases; a name
that this link does not report resolves as it did before the call. On an object whose maps
were empty before the call the keys are exactly the reported names, respectively the
reported names and their aliases. -/
theorem link_success_keys (p : ShaderProgram) (gpu : LinkReply) (k : String)
    (hlink : (link p gpu).1 = true) :
    (k ∈ (link p gpu).2._attribs ↔ k ∈ p._attribs ∨ k ∈ gpu.activeAttribs) ∧
      (k ∈ (link p gpu).2._uniforms ↔
        k ∈ p._uniforms ∨ k ∈ gpu.activeUniforms ∨ k ++ "[0]" ∈ gpu.activeUniforms) ∧
      (k ∉ gpu.activeAttribs → getAttribLocation (link p gpu).2 k = getAttribLocation p k) ∧
      (k ∉ gpu.activeUniforms → k ++ "[0]" ∉ gpu.activeUniforms →
        getUniformLocation (link p gpu).2 k = getUniformLocation p k) ∧
      (p._attribs = ∅ → (k ∈ (link p gpu).2._attribs ↔ k ∈ gpu.activeAttribs)) ∧
      (p._uniforms = ∅ → (k ∈ (link p gpu).2._uniforms ↔
        k ∈ gpu.activeUniforms ∨ k ++ "[0]" ∈ gpu.activeUniforms)) := by
  have hst := (link_fst p gpu).1 hlink
  have ha := link_success_attribs p gpu hst
  have hu := link_success_uniforms p gpu hst
  have hwa : (∃ w ∈ attribAssignments gpu gpu.activeAttribs, w.1 = k) ↔
      k ∈ gpu.activeAttribs := by
    simp [attribAssignments]
  have hwu : (∃ w ∈ uniformAssignments gpu gpu.activeUniforms, w.1 = k) ↔
      (k ∈ gpu.activeUniforms ∨ k ++ "[0]" ∈ gpu.activeUniforms) := by
    constructor
    · rintro ⟨w, hw, hk⟩
      obtain ⟨n, hn, _, hcase⟩ := (mem_uniformAssignments gpu _ w).1 hw
      rcases hcase with h1 | ⟨he, h1⟩
      · exact Or.inl (by rw [← hk, h1]; exact hn)
      · have hname := eq_append_of_endsWithArraySuffix n he
        rw [← h1, hk] at hname
        exact Or.inr (hname ▸ hn)
    · rintro (h1 | h1)
      · exact ⟨(k, storedLocation (gpu.uniformLocation k)),
          (mem_uniformAssignments gpu _ _).2 ⟨k, h1, rfl, Or.inl rfl⟩, rfl⟩
      · exact ⟨(k, storedLocation (gpu.uniformLocation (k ++ "[0]"))),
          (mem_uniformAssignments gpu _ _).2 ⟨k ++ "[0]", h1, rfl,
            Or.inr ⟨endsWithArraySuffix_append k, (stripArraySuffix_append k).symm⟩⟩, rfl⟩
  have hka : k ∈ (link p gpu).2._attribs ↔ k ∈ p._attribs ∨ k ∈ gpu.activeAttribs := by
    rw [ha, mem_assignAll, hwa]
  have hku : k ∈ (link p gpu).2._uniforms ↔
      k ∈ p._uniforms ∨ k ∈ gpu.activeUniforms ∨ k ++ "[0]" ∈ gpu.activeUniforms := by
    rw [hu, mem_assignAll, hwu]
  refine ⟨hka, hku, ?_, ?_, ?_, ?_⟩
  · intro hk
    have hnone : lastAssigned k (attribAssignments gpu gpu.activeAttribs) = none :=
      (lastAssigned_eq_none k _).2 (fun w hw hwk => hk (hwa.1 ⟨w, hw, hwk⟩))
    have : (link p gpu).2._attribs.lookup k = p._attribs.lookup k := by
      rw [ha, lookup_assignAll, hnone]
    simp [getAttribLocation, this]
  · intro hk1 hk2
    have hnone : lastAssigned k (uniformAssignments gpu gpu.activeUniforms) = none :=
      (lastAssigned_eq_none k _).2 (fun w hw hwk =>
        (hwu.1 ⟨w, hw, hwk⟩).elim hk1 hk2)
    have : (link p gpu).2._uniforms.lookup k = p._uniforms.lookup k := by
      rw [hu, lookup_assignAll, hnone]
    simp [getUniformLocation, this]
  · intro he
    rw [hka, he]
    simp [Finmap.not_mem_empty]
  · intro he
    rw [hku, he]
    simp [Finmap.not_mem_empty]

theorem link_success_keys_witness :
    ("position" ∈ (link (ShaderProgram.create 1) replyLinked).2._attribs ↔
        "position" ∈ (ShaderProgram.create 1)._attribs ∨
          "position" ∈ replyLinked.activeAttribs) ∧
      ("position" ∈ (link (ShaderProgram.create 1) replyLinked).2._attribs ↔
        "position" ∈ replyLinked.activeAttribs) :=
  have h := link_success_keys (ShaderProgram.create 1) replyLinked "position" (by decide)
  ⟨h.1, h.2.2.2.2.1 rfl⟩

/-- C7. The lookup `getAttribLocation(name)` returns the location stored under `name` when
`name` is a key of the attribute map and the sentinel -1 when it is not, and
`getUniformLocation(name)` does the same on the uniform map; both are functions of the
object alone, which they leave as it is. In particular every name yields -1 on an object
that was constructed and since then only linked without success. -/
theorem lookup_hit_or_sentinel (p : ShaderProgram) (name : String) :
    (∀ location, p._attribs.lookup name = some location →
        getAttribLocation p name = location) ∧
      (name ∉ p._attribs → getAttribLocation p name = -1) ∧
      (∀ location, p._uniforms.lookup name = some location →
        getUniformLocation p name = location) ∧
      (name ∉ p._uniforms → getUniformLocation p name = -1) ∧
      (∀ handle replies, (∀ gpu ∈ replies, gpu.linkStatus = GL_FALSE) →
        getAttribLocation (links (ShaderProgram.create handle) replies) name = -1 ∧
          getUniformLocation (links (ShaderProgram.create handle) replies) name = -1) := by
  refine ⟨?_, ?_, ?_, ?_, ?_⟩
  · intro location h
    simp [getAttribLocation, h]
  · intro h
    simp [getAttribLocation, Finmap.lookup_eq_none.2 h]
  · intro location h
    simp [getUniformLocation, h]
  · intro h
    simp [getUniformLocation, Finmap.lookup_eq_none.2 h]
  · intro handle replies hall
    have key : ∀ (rs : List LinkReply) (q : ShaderProgram),
        (∀ gpu ∈ rs, gpu.linkStatus = GL_FALSE) →
          (links q rs)._attribs = q._attribs ∧ (links q rs)._uniforms = q._uniforms := by
      intro rs
      induction rs with
      | nil => intro q _; exact ⟨rfl, rfl⟩
      | cons r rs ih =>
        intro q hq
        have hr : r.linkStatus = GL_FALSE := hq r (List.mem_cons_self _ _)
        have hstep : links q (r :: rs) = links (link q r).2 rs := rfl
        have hrest := ih (link q r).2 (fun g hg => hq g (List.mem_cons_of_mem _ hg))
        have hkeep : (link q r).2._attribs = q._attribs ∧
            (link q r).2._uniforms = q._uniforms := by
          unfold link
          by_cases h2 : 1 < r.infoLogLength <;> simp [hr, h2]
        rw [hstep, hrest.1, hrest.2]
        exact hkeep
    obtain ⟨h1, h2⟩ := key replies (ShaderProgram.create handle) hall
    have e1 : (ShaderProgram.create handle)._attribs = ∅ := rfl
    have e2 : (ShaderProgram.create handle)._uniforms = ∅ := rfl
    unfold getAttribLocation getUniformLocation
    rw [h1, h2, e1, e2, Finmap.lookup_empty]
    exact ⟨rfl, rfl⟩

theorem lookup_hit_or_sentinel_witness :
    getAttribLocation (link (ShaderProgram.create 1) replyLinked).2 "position" = 0 ∧
      getAttribLocation (link (ShaderProgram.create 1) replyLinked).2 "colour" = -1 ∧
      getUniformLocation (links (ShaderProgram.create 1) [replyBroken, replySilent]) "Time"
        = -1 :=
  ⟨(lookup_hit_or_sentinel (link (ShaderProgram.create 1) replyLinked).2 "position").1 0
      (by decide),
    (lookup_hit_or_sentinel (link (ShaderProgram.create 1) replyLinked).2 "colour").2.1
      (by decide),
    ((lookup_hit_or_sentinel (ShaderProgram.create 1) "Time").2.2.2.2 1
      [replyBroken, replySilent] (by decide)).2⟩

/-- C8. On a frame that finds the reload flag dirty and on which `LoadShaders` returns a
program: both shader files were read, both shaders compiled, and the returned program is
the freshly constructed object after a `link()` that returned true, with an empty log.
After the rebuild step of `RenderFrame` it is the active program and `last_error_message`
is empty, whatever program and message were in place before the frame. -/
theorem successful_rebuild_swaps_program (st : RenderState) (env : RebuildEnv)
    (time : GLfloat) (vertex fragment : String) (program : ShaderProgram)
    (hdirty : dirty st = true)
    (hok : LoadShaders env vertex fragment = .ok program) :
    (∀ type ∈ [GL_VERTEX_SHADER, GL_FRAGMENT_SHADER], ∃ path source,
        GetShaderPath env type = .ok path ∧
        LoadTextFile env.fs path = .ok source ∧ (env.compile type source).1 = true) ∧
      (link (ShaderProgram.create env.program) env.linkReply).1 = true ∧
      program = (link (ShaderProgram.create env.program) env.linkReply).2 ∧
      program._handle = env.program ∧ getLog program = "" ∧
      (RenderFrame st env time).1.shader_program = program ∧
      (RenderFrame st env time).1.last_error_message = "" ∧
      dirty (RenderFrame st env time).1 = false := by
  have hflag : st.shader_program_is_initialized = false := by
    simpa [dirty] using hdirty
  have hok2 : RenderFrame.tryLoadShaders env = .ok program := by
    rw [tryLoadShaders_eq env vertex fragment]
    exact hok
  have hst : (RenderFrame st env time).1 =
      { shader_program_is_initialized := true, shader_program := program,
        last_error_message := "" } := by
    rw [RenderFrame_dirty st env time hflag]
    unfold RenderFrame.rebuild
    rw [hok2]
  rw [LoadShaders_eq] at hok
  cases h1 : loadShader env GL_VERTEX_SHADER with
  | error e =>
    rw [h1] at hok
    cases hok
  | ok u =>
    rw [h1] at hok
    cases h2 : loadShader env GL_FRAGMENT_SHADER with
    | error e =>
      rw [h2] at hok
      cases hok
    | ok u2 =>
      rw [h2] at hok
      by_cases hl : (link (ShaderProgram.create env.program) env.linkReply).1 = true
      · have hp : (Except.ok (link (ShaderProgram.create env.program) env.linkReply).2 :
            Except String ShaderProgram) = Except.ok program := by
          simpa only [if_pos hl] using hok
        injection hp with hp
        have hstatus := (link_fst _ _).1 hl
        refine ⟨?_, hl, hp.symm, ?_, ?_, by rw [hst], by rw [hst], by simp [dirty, hst]⟩
        · intro type htype
          simp only [List.mem_cons, List.mem_singleton, List.not_mem_nil, or_false] at htype
          rcases htype with rfl | rfl
          · exact loadShader_ok_cases env _ u h1
          · exact loadShader_ok_cases env _ u2 h2
        · rw [← hp, link_handle]
          rfl
        · rw [← hp]
          exact link_success_log _ _ hstatus
      · have hp : (Except.error
            (getLog (link (ShaderProgram.create env.program) env.linkReply).2) :
              Except String ShaderProgram) = Except.ok program := by
          simpa only [if_neg hl] using hok
        cases hp

theorem successful_rebuild_swaps_program_witness :
    (RenderFrame stateRunningDirty envGood 0).1.shader_program =
        (link (ShaderProgram.create 2) replyLinked).2 ∧
      (RenderFrame stateRunningDirty envGood 0).1.last_error_message = "" :=
  have h := successful_rebuild_swaps_program stateRunningDirty envGood 0 "" ""
    (link (ShaderProgram.create 2) replyLinked).2 (by decide) rfl
  ⟨h.2.2.2.2.2.1, h.2.2.2.2.2.2.1⟩

/-- C9. In every interleaving of file actions with the blocks of the render thread, from
every state: a block of `RenderFrame` after the `test_and_set` never writes the flag; so
after a file action, whatever the render thread was doing (rebuilding included) and
whatever further file actions follow, the frame in progress ends with the flag still dirty,
the `test_and_set` of the next frame reports it and that frame starts a rebuild. And after
one file action followed by no other, the render thread starts exactly one more rebuild:
none before the next frame begins, one however many frames follow. -/
theorem notification_never_lost (s : System) :
    (∀ env, s.pc ≠ Pc.frameStart →
        (s.step (.renderStep env)).render.shader_program_is_initialized =
          s.render.shader_program_is_initialized) ∧
      (∀ es env, renderSteps es = s.pc.remaining →
        ((s.step .fileAction).run es).pc = Pc.frameStart ∧
          dirty ((s.step .fileAction).run es).render = true ∧
          (takeDirtyAndClear ((s.step .fileAction).run es).render).1 = true ∧
          (((s.step .fileAction).run es).step (.renderStep env)).pc = Pc.rebuilding ∧
          (((s.step .fileAction).run es).step (.renderStep env)).rebuilds =
            s.rebuilds + 1) ∧
      (∀ envs : List RebuildEnv, envs.length ≤ s.pc.remaining →
        ((s.step .fileAction).run (envs.map Event.renderStep)).rebuilds = s.rebuilds) ∧
      (∀ envs : List RebuildEnv, s.pc.remaining < envs.length →
        ((s.step .fileAction).run (envs.map Event.renderStep)).rebuilds = s.rebuilds + 1) := by
  refine ⟨fun env h => System.step_render_flag s env h, ?_, ?_, ?_⟩
  · intro es env hes
    obtain ⟨h1, h2, h3⟩ := System.run_to_frameStart es (s.step .fileAction) rfl hes
    obtain ⟨h4, h5, _⟩ := System.step_frameStart_dirty _ env h1 h2
    refine ⟨h1, by simp [dirty, h2], ?_, h4, ?_⟩
    · simp [takeDirtyAndClear, testAndSet_eq, h2]
    · rw [h5, h3]
      rfl
  · intro envs hlen
    exact System.run_dirty_none envs (s.step .fileAction) hlen
  · intro envs hlen
    exact System.run_dirty_once envs (s.step .fileAction) rfl hlen

theorem notification_never_lost_witness :
    ((System.step { pc := Pc.rebuilding, render := stateRunningDirty, rebuilds := 4 }
        Event.fileAction).run
          [Event.renderStep envGood, Event.fileAction, Event.renderStep envGood]).pc =
        Pc.frameStart ∧
      ((System.step { pc := Pc.rebuilding, render := stateRunningDirty, rebuilds := 4 }
        Event.fileAction).run
          ([envGood, envGood, envGood, envGood, envGood, envGood].map
            Event.renderStep)).rebuilds = 4 + 1 :=
  ⟨((notification_never_lost
      { pc := Pc.rebuilding, render := stateRunningDirty, rebuilds := 4 }).2.1
      [Event.renderStep envGood, Event.fileAction, Event.renderStep envGood] envGood rfl).1,
    (notification_never_lost
      { pc := Pc.rebuilding, render := stateRunningDirty, rebuilds := 4 }).2.2.2
      [envGood, envGood, envGood, envGood, envGood, envGood] (by decide)⟩

/-- C10. When `link()` succeeds twice in a row on an object and the driver reports the same
active attributes, the same active uniforms and the same locations for them both times,
the attribute map and the uniform map after the second link are equal to those after the
first, whatever the object held before. -/
theorem link_twice_same_maps (p : ShaderProgram) (gpu1 gpu2 : LinkReply)
    (h1 : (link p gpu1).1 = true) (h2 : (link (link p gpu1).2 gpu2).1 = true)
    (ha : gpu2.activeAttribs = gpu1.activeAttribs)
    (hu : gpu2.activeUniforms = gpu1.activeUniforms)
    (hal : ∀ n ∈ gpu1.activeAttribs, gpu2.attribLocation n = gpu1.attribLocation n)
    (hul : ∀ n ∈ gpu1.activeUniforms, gpu2.uniformLocation n = gpu1.uniformLocation n) :
    (link (link p gpu1).2 gpu2).2._attribs = (link p gpu1).2._attribs ∧
      (link (link p gpu1).2 gpu2).2._uniforms = (link p gpu1).2._uniforms := by
  have hs1 := (link_fst p gpu1).1 h1
  have hs2 := (link_fst (link p gpu1).2 gpu2).1 h2
  constructor
  · rw [link_success_attribs _ gpu2 hs2, link_success_attribs p gpu1 hs1, ha,
      attribAssignments_congr gpu1 gpu2 _ hal, assignAll_idem]
  · rw [link_success_uniforms _ gpu2 hs2, link_success_uniforms p gpu1 hs1, hu,
      uniformAssignments_congr gpu1 gpu2 _ hul, assignAll_idem]

theorem link_twice_same_maps_witness :
    (link (link (link (ShaderProgram.create 1) replyRelinked).2 replyLinked).2
        replyLinked).2._attribs =
      (link (link (ShaderProgram.create 1) replyRelinked).2 replyLinked).2._attribs ∧
    (link (link (link (ShaderProgram.create 1) replyRelinked).2 replyLinked).2
        replyLinked).2._uniforms =
      (link (link (ShaderProgram.create 1) replyRelinked).2 replyLinked).2._uniforms :=
  link_twice_same_maps (link (ShaderProgram.create 1) replyRelinked).2 replyLinked replyLinked
    (by decide) (by decide) rfl rfl (fun _ _ => rfl) (fun _ _ => rfl)


/-- C11. For every object, name and arguments, each of the 36 specialisations of
`setUniform`, `setUniformPtr` and `setUniformMatrixPtr` leaves the object as it is (log,
attribute map, uniform map and subroutine map included) and issues exactly one command, a
`glProgramUniform*` addressed to the object's own handle at location
`getUniformLocation(name)`; that location is the value stored under `name` when the uniform
map has one and the sentinel -1 when `name` is not a key. -/
theorem setters_upload_once (p : ShaderProgram) (name : String) (a : UniformArgs) :
    (everySetter p name a).length = 36 ∧
      (∀ r ∈ everySetter p name a,
        r.1 = p ∧ ∃ data, r.2 = [⟨p._handle, getUniformLocation p name, data⟩]) ∧
      (∀ location, p._uniforms.lookup name = some location →
        getUniformLocation p name = location) ∧
      (name ∉ p._uniforms → getUniformLocation p name = -1) := by
  refine ⟨rfl, ?_, ?_, ?_⟩
  · intro r hr
    simp only [everySetter, List.mem_cons, List.mem_singleton, List.not_mem_nil,
      or_false] at hr
    rcases hr with h | h | h | h | h | h | h | h | h | h | h | h | h | h | h | h | h | h |
      h | h | h | h | h | h | h | h | h | h | h | h | h | h | h | h | h | h <;>
    · subst h
      exact ⟨rfl, _, rfl⟩
  · intro location h
    simp [getUniformLocation, h]
  · intro h
    simp [getUniformLocation, Finmap.lookup_eq_none.2 h]


theorem setters_upload_once_witness :
    (setUniform_GLfloat_1 (link (ShaderProgram.create 1) replyLinked).2 "Time"
        argsSample.f1).1 = (link (ShaderProgram.create 1) replyLinked).2 ∧
      getUniformLocation (link (ShaderProgram.create 1) replyLinked).2 "Time" = 2 ∧
      getUniformLocation (link (ShaderProgram.create 1) replyLinked).2 "Clock" = -1 :=
  have h := setters_upload_once (link (ShaderProgram.create 1) replyLinked).2 "Time" argsSample
  ⟨(h.2.1 _ (List.mem_cons_self _ _)).1, h.2.2.1 2 (by decide),
    (setters_upload_once (link (ShaderProgram.create 1) replyLinked).2 "Clock"
      argsSample).2.2.2 (by decide)⟩

/-- C12 (as stated, refuted). An object is linked successfully while the fragment stage has
the subroutine uniform `shade`, then linked successfully again while the driver reports no
subroutine uniform for any stage: the fragment stage still has its entry, with `shade` in
it. And within one link: when the driver enumerates two subroutine uniforms named `pick`,
the entry records index 1 and index 0 is recorded nowhere; when it names the subroutines 0
and 1 of `pick` both `same`, the name maps to 1 only. -/
theorem stale_stage_survives_relink :
    ((link (ShaderProgram.create 1) replyShaded).1 = true ∧
      (link (link (ShaderProgram.create 1) replyShaded).2 replyRelinked).1 = true ∧
      GL_FRAGMENT_SHADER ∈ stageKinds ∧
      replyRelinked.subroutineUniforms GL_FRAGMENT_SHADER = [] ∧
      GL_FRAGMENT_SHADER ∈
        (link (link (ShaderProgram.create 1) replyShaded).2 replyRelinked).2._subroutines ∧
      (((link (link (ShaderProgram.create 1) replyShaded).2
        replyRelinked).2._subroutines.lookup GL_FRAGMENT_SHADER).bind
          (fun stage => stage.lookup "shade")).map (fun su => su.uniform) = some 0) ∧
    ((link (ShaderProgram.create 1) replyTwins).1 = true ∧
      (replyTwins.subroutineUniforms GL_FRAGMENT_SHADER)[0]? = some ("pick", [0]) ∧
      (((link (ShaderProgram.create 1) replyTwins).2._subroutines.lookup
        GL_FRAGMENT_SHADER).bind
          (fun stage => stage.lookup "pick")).map (fun su => su.uniform) = some 1) ∧
    ((link (ShaderProgram.create 1) replyHomonyms).1 = true ∧
      (replyHomonyms.subroutineUniforms GL_FRAGMENT_SHADER)[0]? = some ("pick", [0, 1]) ∧
      replyHomonyms.subroutineName GL_FRAGMENT_SHADER 0 = "same" ∧
      (((link (ShaderProgram.create 1) replyHomonyms).2._subroutines.lookup
        GL_FRAGMENT_SHADER).bind
          (fun stage => stage.lookup "pick")).bind (fun su => su.subroutines.lookup "same") =
        some 1) := by
  decide

/-- C12 (amended). After every successful `link()`, for every stage kind of the fixed set:
if the driver reports no active subroutine uniform for the stage in this link, the stage's
entry in the subroutine map is what it was before the call, so the link creates no entry
and no empty sub-map, and an entry of an earlier link stays. If it reports at least one, the
stage has an entry; its keys are the keys the stage had before together with the reported
names, names not reported keep their old record, and, the reported names being pairwise
distinct, each reported subroutine uniform records its enumeration index and maps the name
of each compatible subroutine to that subroutine's index, as far as no other compatible
subroutine of it bears the same name. -/
theorem subroutine_map_after_link (p : ShaderProgram) (gpu : LinkReply) (type : GLenum)
    (hlink : (link p gpu).1 = true) (htype : type ∈ stageKinds) :
    (gpu.subroutineUniforms type = [] →
        (link p gpu).2._subroutines.lookup type = p._subroutines.lookup type) ∧
      (gpu.subroutineUniforms type = [] → type ∉ p._subroutines →
        type ∉ (link p gpu).2._subroutines) ∧
      (gpu.subroutineUniforms type ≠ [] →
        ∃ stage, (link p gpu).2._subroutines.lookup type = some stage ∧
          (∀ name, name ∈ stage ↔
            name ∈ (p._subroutines.lookup type).getD ∅ ∨
              ∃ e ∈ gpu.subroutineUniforms type, e.1 = name) ∧
          (∀ name, (∀ e ∈ gpu.subroutineUniforms type, e.1 ≠ name) →
            stage.lookup name = ((p._subroutines.lookup type).getD ∅).lookup name) ∧
          (((gpu.subroutineUniforms type).map Prod.fst).Nodup →
            ∀ k name s, (gpu.subroutineUniforms type)[k]? = some (name, s) →
              ∃ su, stage.lookup name = some su ∧ su.uniform = k ∧
                ∀ sj ∈ s,
                  (∀ other ∈ s, gpu.subroutineName type other = gpu.subroutineName type sj →
                    other = sj) →
                  su.subroutines.lookup (gpu.subroutineName type sj) = some sj)) := by
  have hst := (link_fst p gpu).1 hlink
  have hstage := link_success_stage p gpu type hst htype
  refine ⟨?_, ?_, ?_⟩
  · intro hnil
    rw [hstage, stageAfter, hnil]
  · intro hnil hnot
    rw [← Finmap.lookup_eq_none] at hnot ⊢
    rw [hstage, stageAfter, hnil]
    exact hnot
  · intro hne
    cases hus : gpu.subroutineUniforms type with
    | nil => exact absurd hus hne
    | cons entry rest =>
      refine ⟨retrieveStageFrom gpu type 0 (entry :: rest)
        ((p._subroutines.lookup type).getD ∅), ?_, ?_, ?_, ?_⟩
      · rw [hstage, stageAfter, hus]
      · intro name
        exact mem_retrieveStageFrom gpu type _ 0 _ name
      · intro name hname
        exact lookup_retrieveStageFrom_of_not_mem gpu type _ 0 _ name hname
      · intro hnd k name s hk
        refine ⟨_, lookup_retrieveStageFrom gpu type _ 0 _ k name s hnd hk, by simp, ?_⟩
        intro sj hsj hinj
        exact lookup_subroutineAssignments gpu type s _ sj hsj hinj

theorem subroutine_map_after_link_witness :
    (∃ stage, (link (ShaderProgram.create 1) replyShaded).2._subroutines.lookup
        GL_FRAGMENT_SHADER = some stage ∧
        ∃ su, stage.lookup "shade" = some su ∧ su.uniform = 0 ∧
          su.subroutines.lookup (replyShaded.subroutineName GL_FRAGMENT_SHADER 1) = some 1) ∧
      GL_VERTEX_SHADER ∉ (link (ShaderProgram.create 1) replyShaded).2._subroutines :=
  ⟨(let ⟨stage, h1, _, _, h4⟩ := (subroutine_map_after_link (ShaderProgram.create 1)
      replyShaded GL_FRAGMENT_SHADER (by decide) (by decide)).2.2 (by decide)
    let ⟨su, h5, h6, h7⟩ := h4 (by decide) 0 "shade" [0, 1] (by decide)
    ⟨stage, h1, su, h5, h6, h7 1 (by decide) (by decide)⟩),
   (subroutine_map_after_link (ShaderProgram.create 1) replyShaded GL_VERTEX_SHADER
      (by decide) (by decide)).2.1 (by decide) (by decide)⟩

/-- C13. When `link()` fails, the driver reports an information log length above 1 and the
`n` characters it writes (as many as the log has, at most the reported length less one)
hold no NUL: `n` is at least 1, the index `n - 1` written by `infoLog[logLength - 1]` lies
inside the buffer of the reported length, and the stored log is exactly the first `n - 1`
written characters, whatever the last written character is. -/
theorem stored_log_drops_last_character (p : ShaderProgram) (gpu : LinkReply)
    (hstatus : gpu.linkStatus = GL_FALSE) (hlen : 1 < gpu.infoLogLength)
    (hnul : NUL ∉ gpu.infoLog.take
      (glGetProgramInfoLog gpu.infoLogLength.toNat gpu.infoLog
        (List.replicate gpu.infoLogLength.toNat NUL)).1) :
    1 ≤ (glGetProgramInfoLog gpu.infoLogLength.toNat gpu.infoLog
        (List.replicate gpu.infoLogLength.toNat NUL)).1 ∧
      (glGetProgramInfoLog gpu.infoLogLength.toNat gpu.infoLog
        (List.replicate gpu.infoLogLength.toNat NUL)).1 - 1 < gpu.infoLogLength.toNat ∧
      (glGetProgramInfoLog gpu.infoLogLength.toNat gpu.infoLog
        (List.replicate gpu.infoLogLength.toNat NUL)).1 =
          min gpu.infoLog.length (gpu.infoLogLength.toNat - 1) ∧
      (link p gpu).1 = false ∧
      getLog (link p gpu).2 = String.mk (gpu.infoLog.take
        ((glGetProgramInfoLog gpu.infoLogLength.toNat gpu.infoLog
          (List.replicate gpu.infoLogLength.toNat NUL)).1 - 1)) := by
  obtain ⟨h1, h2⟩ := link_store_in_bounds gpu (List.replicate gpu.infoLogLength.toNat NUL)
    hstatus hlen
  refine ⟨h1, h2, rfl, ?_, ?_⟩
  · simp [link, hstatus, hlen]
  · have hlink : getLog (link p gpu).2 = String.mk (cString
        ((glGetProgramInfoLog gpu.infoLogLength.toNat gpu.infoLog
          (List.replicate gpu.infoLogLength.toNat NUL)).2.set
          ((glGetProgramInfoLog gpu.infoLogLength.toNat gpu.infoLog
            (List.replicate gpu.infoLogLength.toNat NUL)).1 - 1) NUL)) := by
      simp [link, hstatus, hlen, getLog]
    rw [hlink]
    congr 1
    generalize hn : (glGetProgramInfoLog gpu.infoLogLength.toNat gpu.infoLog
      (List.replicate gpu.infoLogLength.toNat NUL)).1 = n at h1 hnul
    have hbuf : (glGetProgramInfoLog gpu.infoLogLength.toNat gpu.infoLog
        (List.replicate gpu.infoLogLength.toNat NUL)).2 =
          gpu.infoLog.take n ++
            NUL :: (List.replicate gpu.infoLogLength.toNat NUL).drop (n + 1) := by
      rw [← hn]
      rfl
    have hnle : n ≤ gpu.infoLog.length := by
      rw [← hn]
      exact Nat.min_le_left _ _
    obtain ⟨k, rfl⟩ : ∃ k, n = k + 1 := ⟨n - 1, by omega⟩
    rw [hbuf, Nat.add_sub_cancel]
    apply cString_set_terminator k gpu.infoLog _ (by omega)
    intro h
    exact hnul (List.mem_of_mem_take (by
      have : gpu.infoLog.take k = (gpu.infoLog.take (k + 1)).take k := by
        rw [List.take_take]
        simp
      rw [this] at h
      exact h))


theorem stored_log_drops_last_character_witness :
    getLog (link (ShaderProgram.create 1) replyBroken).2 = "error: main missing" ∧
      getLog (link (ShaderProgram.create 1) replyTerse).2 = "ba" :=
  ⟨(stored_log_drops_last_character (ShaderProgram.create 1) replyBroken (by decide)
      (by decide) (by decide)).2.2.2.2,
    (stored_log_drops_last_character (ShaderProgram.create 1) replyTerse (by decide)
      (by decide) (by decide)).2.2.2.2⟩

/-- C14. The flag starts clear, that is, dirty: the `test_and_set` of the first
`RenderFrame` returns false and the first frame runs the rebuild, whether or not file
actions came before it. Every `test_and_set` leaves the flag set; from a state in which it
is set, the `test_and_set` of the next frame starts a rebuild if and only if a
`handleFileAction` ran in between. -/
theorem first_frame_builds_then_on_notification (handle : GLuint) :
    dirty (initialState handle) = true ∧
      (RenderFrame.testAndSet (initialState handle)).1 = false ∧
      (∀ env time, (RenderFrame (initialState handle) env time).1 =
        RenderFrame.rebuild
          { initialState handle with shader_program_is_initialized := true } env) ∧
      (∀ es env, renderSteps es = 0 →
        (((System.initial handle).run es).step (.renderStep env)).pc = Pc.rebuilding ∧
          (((System.initial handle).run es).step (.renderStep env)).rebuilds = 1) ∧
      (∀ (s : System) env, s.pc = Pc.frameStart →
        (s.step (.renderStep env)).render.shader_program_is_initialized = true) ∧
      (∀ (s : System) es env, s.render.shader_program_is_initialized = true →
        renderSteps es = s.pc.remaining →
        (s.run es).pc = Pc.frameStart ∧ (s.run es).rebuilds = s.rebuilds ∧
          ((((s.run es).step (.renderStep env)).pc = Pc.rebuilding ∧
              ((s.run es).step (.renderStep env)).rebuilds = s.rebuilds + 1) ↔
            Event.fileAction ∈ es) ∧
          ((((s.run es).step (.renderStep env)).pc = Pc.drawing ∧
              ((s.run es).step (.renderStep env)).rebuilds = s.rebuilds) ↔
            Event.fileAction ∉ es)) := by
  refine ⟨rfl, rfl, fun env time => RenderFrame_dirty _ env time rfl, ?_, ?_, ?_⟩
  · intro es env hes
    obtain ⟨h1, h2, h3⟩ := System.run_flag es (System.initial handle) hes
    have hd : ((System.initial handle).run es).render.shader_program_is_initialized = false :=
      h3.2 (Or.inl rfl)
    obtain ⟨h4, h5, _⟩ := System.step_frameStart_dirty _ env h1 hd
    exact ⟨h4, by rw [h5, h2]; rfl⟩
  · intro s env hpc
    exact (System.step_frameStart s env hpc).1
  · intro s es env hset hes
    obtain ⟨h1, h2, h3⟩ := System.run_flag es s hes
    obtain ⟨_, h5, h6, h7⟩ := System.step_frameStart (s.run es) env h1
    have h3b : (s.run es).render.shader_program_is_initialized = false ↔
        Event.fileAction ∈ es := by
      rw [h3, hset]
      simp
    refine ⟨h1, h2, ?_, ?_⟩
    · rw [← h2, h5, h6, h3b]
      simp
    · constructor
      · rintro ⟨hp, _⟩ hmem
        have := h7.1 hp
        rw [h3b.2 hmem] at this
        cases this
      · intro hmem
        have hclean : (s.run es).render.shader_program_is_initialized = true := by
          cases hf : (s.run es).render.shader_program_is_initialized with
          | true => rfl
          | false => exact absurd (h3b.1 hf) hmem
        refine ⟨h7.2 hclean, ?_⟩
        have : (s.run es).step (.renderStep env) =
            { pc := Pc.drawing, render := (RenderFrame.testAndSet (s.run es).render).2,
              rebuilds := (s.run es).rebuilds } := by
          simp [System.step, h1, testAndSet_eq, hclean]
        rw [this, h2]

theorem first_frame_builds_then_on_notification_witness :
    (((System.initial 1).run [Event.fileAction]).step (.renderStep envGood)).rebuilds = 1 ∧
      ((System.run
          { pc := Pc.rebuilding, rebuilds := 1, render := (RenderFrame.testAndSet stateFresh).2 }
          [Event.renderStep envGood, Event.renderStep envGood]).pc = Pc.frameStart) :=
  ⟨((first_frame_builds_then_on_notification 1).2.2.2.1 [Event.fileAction] envGood rfl).2,
    ((first_frame_builds_then_on_notification 1).2.2.2.2.2
      { pc := Pc.rebuilding, rebuilds := 1, render := (RenderFrame.testAndSet stateFresh).2 }
      [Event.renderStep envGood, Event.renderStep envGood] envGood rfl rfl).1⟩

end SkyContest
